import Mathlib

/-!
# Verification of the fiscal emission workflow (`src/tools/fiscal.ts`)

Shallow embedding of the fiscal-document emission tools of the repository:
the Focus NFe helpers (`resolveFocusToken`, `resolveFocusApiUrl`,
`generateFocusRef`, `isMesmoEstado`, `getCfopVenda`, the code tables), the
payload builders, and the two emission tools `emit_nfe` / `emit_nfse`,
modelled as pure state-passing functions over an explicit store.

JavaScript truthiness on strings (`x || y`, `x || undefined`) is modelled
with `Option String` where both `none` and `some ""` are falsy.
-/

/-- JS truthiness of a possibly-absent string: `undefined`/`null` and `""` are falsy. -/
def truthy : Option String → Bool
  | none => false
  | some s => !(s == "")

/-- JS `a || d` where `a` is a possibly-absent string and `d` a present string. -/
def jsOrStr (o : Option String) (d : String) : String :=
  match o with
  | some s => if s == "" then d else s
  | none => d

/-- JS `a || b` keeping absence: used for `x || undefined` (`b = none`) and option chains. -/
def jsOrOpt (a b : Option String) : Option String :=
  match a with
  | some s => if s == "" then b else s
  | none => b

/-- JS `x || undefined` / `x || null`: a falsy string becomes absent. -/
def jsOpt (o : Option String) : Option String :=
  jsOrOpt o none

/-- Coerce an optional string to the string JS would hold after a truthiness guard. -/
def jsStr (o : Option String) : String :=
  o.getD ""

/-- JS `a || d` on numbers: `undefined` and `0` are falsy. -/
def jsOrInt (o : Option Int) (d : Int) : Int :=
  match o with
  | some v => if v == 0 then d else v
  | none => d

/-- `String.replace(/\D/g, '')`: keep only the decimal digits. -/
def stripNonDigits (s : String) : String :=
  String.mk (s.data.filter Char.isDigit)

/-- `parseInt(s, 10)` on the digit-strings the gateway returns: value of the leading digit run. -/
def parseInt10 (s : String) : Int :=
  ((s.data.takeWhile Char.isDigit).foldl (fun a c => a * 10 + (c.toNat - 48)) 0 : Nat)

/-- `ICMS_ORIGEM_MAP` from the source: origin keyword to origin code. -/
def ICMS_ORIGEM_MAP (k : String) : Option String :=
  if k == "nacional" then some "0"
  else if k == "estrangeira_importacao" then some "1"
  else if k == "estrangeira_mercado_interno" then some "2"
  else if k == "nacional_importado_40_70" then some "3"
  else if k == "nacional_processos" then some "4"
  else if k == "nacional_importado_70" then some "5"
  else if k == "estrangeira_sem_similar" then some "6"
  else if k == "estrangeira_adquirida_mercado" then some "7"
  else if k == "nacional_importado_70_substituido" then some "8"
  else none

/-- `PRESENCA_MAP` from the source: buyer-presence keyword to indicator. -/
def PRESENCA_MAP (k : String) : Option Int :=
  if k == "nao_se_aplica" then some 0
  else if k == "presencial" then some 1
  else if k == "internet" then some 2
  else if k == "televendas" then some 3
  else if k == "entrega_domicilio" then some 4
  else if k == "presencial_fora" then some 5
  else if k == "outros" then some 9
  else none

/-- `FINALIDADE_MAP` from the source: purpose keyword to purpose code. -/
def FINALIDADE_MAP (k : String) : Option Int :=
  if k == "normal" then some 1
  else if k == "complementar" then some 2
  else if k == "ajuste" then some 3
  else if k == "devolucao" then some 4
  else none

def DEFAULT_CSOSN : String := "102"

def PIS_COFINS_CST_SIMPLES : String := "99"

/-- `generateFocusRef`: the nondeterministic parts (base-36 timestamp, 6
random base-36 chars) are passed in explicitly. -/
def generateFocusRef (orgId : String) (tipo : String) (timestamp36 random6 : String) : String :=
  tipo ++ "_" ++ (orgId.take 8) ++ "_" ++ timestamp36 ++ "_" ++ random6

/-- `s.toUpperCase()`, written over the character list so it evaluates in the kernel. -/
def toUpperStr (s : String) : String :=
  String.mk (s.data.map Char.toUpper)

/-- `isMesmoEstado`: case-insensitive region-code equality. -/
def isMesmoEstado (ufEmitente ufDestinatario : String) : Bool :=
  toUpperStr ufEmitente == toUpperStr ufDestinatario

/-- `getCfopVenda`: operation code by jurisdiction match and tax-substitution flag. -/
def getCfopVenda (dentroEstado : Bool) (st : Bool) : String :=
  if dentroEstado then (if st then "5405" else "5102")
  else (if st then "6405" else "6102")

/-- The tenant's `fiscal_config` row (fields the emission workflow reads or writes). -/
structure FiscalConfig where
  organization_id : String
  nfe_habilitado : Bool
  nfse_habilitado : Bool
  focus_nfe_ambiente : Option String
  focus_nfe_token_producao : Option String
  focus_nfe_token_homologacao : Option String
  focus_nfe_token : Option String
  certificado_validade : Option Int
  nfe_ultimo_numero : Int
  nfse_ultimo_numero : Int
  nfe_serie : Option Int
  uf : String
  cnpj : Option String
  inscricao_municipal : Option String
  codigo_municipio : Option String
  nfse_aliquota_iss : Option Int
  nfse_codigo_servico : Option String
  updated_at : Option String
deriving DecidableEq, Repr

/-- The error message thrown by `resolveFocusToken` when no credential resolves. -/
def tokenErrMsg (ambiente : String) : String :=
  "Token Focus NFe não configurado para ambiente \"" ++ ambiente ++ "\". Configure pelo app web."

/-- `cfg.focus_nfe_ambiente || 'homologacao'`, shared by the two resolvers. -/
def focusAmbiente (cfg : FiscalConfig) : String :=
  jsOrStr cfg.focus_nfe_ambiente "homologacao"

/-- The environment-selected credential slot of `resolveFocusToken`. -/
def focusSlot (cfg : FiscalConfig) : Option String :=
  if focusAmbiente cfg == "producao" then cfg.focus_nfe_token_producao
  else cfg.focus_nfe_token_homologacao

/-- `resolveFocusToken`: environment slot, then legacy single token, then the
process-wide master token (`FOCUS_NFE_MASTER_TOKEN`, passed in explicitly). -/
def resolveFocusToken (cfg : FiscalConfig) (masterToken : Option String) : Except String String :=
  match jsOrOpt (focusSlot cfg) (jsOrOpt cfg.focus_nfe_token masterToken) with
  | some t =>
    if t == "" then .error (tokenErrMsg (focusAmbiente cfg)) else .ok t
  | none => .error (tokenErrMsg (focusAmbiente cfg))

/-- `resolveFocusApiUrl`: fixed sandbox URL, fixed/overridable production URL
(`FOCUS_NFE_API_URL` passed in explicitly). -/
def resolveFocusApiUrl (cfg : FiscalConfig) (envApiUrl : Option String) : String :=
  if focusAmbiente cfg == "producao" then jsOrStr envApiUrl "https://api.focusnfe.com.br"
  else "https://homologacao.focusnfe.com.br"

/-- A `notas_fiscais` row (fields the emission workflow reads or writes). -/
structure NotaFiscal where
  id : String
  organization_id : String
  tipo : String
  status : String
  cliente_id : Option String
  destinatario_nome : Option String
  destinatario_cpf_cnpj : Option String
  destinatario_tipo : Option String
  destinatario_ie : Option String
  destinatario_telefone : Option String
  destinatario_email : Option String
  destinatario_logradouro : Option String
  destinatario_numero : Option String
  destinatario_complemento : Option String
  destinatario_bairro : Option String
  destinatario_municipio : Option String
  destinatario_uf : Option String
  destinatario_cep : Option String
  destinatario_codigo_municipio : Option String
  natureza_operacao : Option String
  finalidade : Option String
  indicador_presenca : Option String
  informacoes_adicionais : Option String
  valor_total : Int
  numero : Option Int
  serie : Option Int
  chave_acesso : Option String
  protocolo : Option String
  focus_nfe_ref : Option String
  focus_nfe_status : Option String
  status_sefaz : Option String
  mensagem_sefaz : Option String
  url_xml : Option String
  url_danfe : Option String
  url_pdf : Option String
  data_emissao : Option String
  aliquota_iss : Option Int
  discriminacao_servicos : Option String
  iss_retido : Bool
  codigo_servico : Option String
  updated_at : Option String
deriving DecidableEq, Repr

/-- A `notas_fiscais_itens` row. -/
structure NotaItem where
  id : String
  nota_fiscal_id : String
  numero_item : Int
  codigo : Option String
  descricao : String
  cfop : Option String
  unidade : Option String
  quantidade : Int
  valor_unitario : Int
  valor_total : Int
  ncm : Option String
  cest : Option String
  icms_origem : Option String
  icms_cst : Option String
  pis_cst : Option String
  cofins_cst : Option String
deriving DecidableEq, Repr

/-- The JSON body the gateway returns on a successful exchange (fields read by the tools). -/
structure FocusResponse where
  status : String
  numero : Option String
  serie : Option String
  chave_nfe : Option String
  protocolo : Option String
  status_sefaz : Option String
  mensagem_sefaz : Option String
  mensagem : Option String
  caminho_xml_nota_fiscal : Option String
  caminho_danfe : Option String
  url : Option String
deriving DecidableEq, Repr

/-- `dados` of a `fiscal_eventos` row: either the raw gateway response or the
synthetic `\x7b error: message \x7d` body. -/
inductive EventoDados where
  | resposta (r : FocusResponse)
  | erro (msg : String)
deriving DecidableEq, Repr

/-- A `fiscal_eventos` row. -/
structure FiscalEvento where
  organization_id : String
  nota_fiscal_id : String
  tipo : String
  status : String
  mensagem : String
  dados : EventoDados
  created_at : String
deriving DecidableEq, Repr

/-- One entry of the `forma_pagamento` array of the NFe payload. -/
structure Pagamento where
  forma_pagamento : String
  valor_pagamento : Int
deriving DecidableEq, Repr

/-- One mapped line item of the NFe payload. -/
structure FocusItem where
  numero_item : Nat
  codigo_produto : String
  descricao : String
  cfop : String
  unidade_comercial : String
  quantidade_comercial : Int
  valor_unitario_comercial : Int
  valor_bruto : Int
  ncm : String
  cest : Option String
  icms_origem : String
  icms_situacao_tributaria : String
  pis_situacao_tributaria : String
  cofins_situacao_tributaria : String
deriving DecidableEq, Repr

/-- The NFe request payload (`focusPayload` of `emit_nfe`). -/
structure NfePayload where
  natureza_operacao : String
  data_emissao : String
  tipo_documento : Int
  finalidade_emissao : Int
  consumidor_final : Int
  presenca_comprador : Int
  nome_destinatario : String
  cpf_destinatario : Option String
  cnpj_destinatario : Option String
  inscricao_estadual_destinatario : Option String
  telefone_destinatario : Option String
  email_destinatario : Option String
  logradouro_destinatario : String
  numero_destinatario : String
  complemento_destinatario : Option String
  bairro_destinatario : String
  municipio_destinatario : String
  uf_destinatario : String
  cep_destinatario : String
  codigo_municipio_destinatario : Option String
  forma_pagamento : List Pagamento
  items : List FocusItem
  informacoes_adicionais_contribuinte : Option String
deriving DecidableEq, Repr

/-- `tomador.endereco` of the NFSe payload. -/
structure NfseEndereco where
  logradouro : String
  numero : String
  complemento : String
  bairro : String
  codigo_municipio : Option String
  uf : String
  cep : String
deriving DecidableEq, Repr

/-- `prestador` of the NFSe payload. -/
structure NfsePrestador where
  cnpj : Option String
  inscricao_municipal : Option String
  codigo_municipio : Option String
deriving DecidableEq, Repr

/-- `tomador` of the NFSe payload. -/
structure NfseTomador where
  cpf : Option String
  cnpj : Option String
  razao_social : String
  email : Option String
  telefone : Option String
  endereco : NfseEndereco
deriving DecidableEq, Repr

/-- `servico` of the NFSe payload; `iss_retido` is the literal string
serialization of the boolean, as on the wire. -/
structure NfseServico where
  aliquota : Int
  discriminacao : String
  iss_retido : String
  item_lista_servico : String
  valor_servicos : Int
deriving DecidableEq, Repr

/-- The NFSe request payload (`focusPayload` of `emit_nfse`). -/
structure NfsePayload where
  data_emissao : String
  natureza_operacao : String
  prestador : NfsePrestador
  tomador : NfseTomador
  servico : NfseServico
deriving DecidableEq, Repr

/-- One mapped line item of `focusItens` (`emit_nfe`, the `.map((item, index) => ...)` body). -/
def buildFocusItem (dentroEstado : Bool) (index : Nat) (item : NotaItem) : FocusItem :=
  { numero_item := index + 1
  , codigo_produto := jsOrStr item.codigo (item.id.take 8)
  , descricao := item.descricao
  , cfop := jsOrStr item.cfop (getCfopVenda dentroEstado false)
  , unidade_comercial := jsOrStr item.unidade "UN"
  , quantidade_comercial := item.quantidade
  , valor_unitario_comercial := item.valor_unitario
  , valor_bruto := item.valor_total
  , ncm := jsOrStr item.ncm "00000000"
  , cest := jsOpt item.cest
  , icms_origem := jsOrStr (ICMS_ORIGEM_MAP (jsOrStr item.icms_origem "nacional")) "0"
  , icms_situacao_tributaria := jsOrStr item.icms_cst DEFAULT_CSOSN
  , pis_situacao_tributaria := jsOrStr item.pis_cst PIS_COFINS_CST_SIMPLES
  , cofins_situacao_tributaria := jsOrStr item.cofins_cst PIS_COFINS_CST_SIMPLES }

/-- The indexed map over the line items (`itens.map((item, index) => ...)`). -/
def mapFocusItens (dentroEstado : Bool) : Nat → List NotaItem → List FocusItem
  | _, [] => []
  | i, x :: xs => buildFocusItem dentroEstado i x :: mapFocusItens dentroEstado (i + 1) xs

/-- The NFe payload construction of `emit_nfe` (pure part of the tool body). -/
def buildNfePayload (cfg : FiscalConfig) (n : NotaFiscal) (itens : List NotaItem) (now : String) :
    NfePayload :=
  let dentroEstado := isMesmoEstado cfg.uf (jsStr n.destinatario_uf)
  let cpfCnpj := stripNonDigits (jsStr n.destinatario_cpf_cnpj)
  let isCnpj := cpfCnpj.length == 14
  { natureza_operacao := jsOrStr n.natureza_operacao "Venda de mercadoria"
  , data_emissao := now
  , tipo_documento := 1
  , finalidade_emissao := jsOrInt (FINALIDADE_MAP (jsOrStr n.finalidade "normal")) 1
  , consumidor_final := if n.destinatario_tipo == some "pessoa_fisica" then 1 else 0
  , presenca_comprador := jsOrInt (PRESENCA_MAP (jsOrStr n.indicador_presenca "nao_se_aplica")) 0
  , nome_destinatario := jsStr n.destinatario_nome
  , cpf_destinatario := if isCnpj then none else some cpfCnpj
  , cnpj_destinatario := if isCnpj then some cpfCnpj else none
  , inscricao_estadual_destinatario := jsOpt n.destinatario_ie
  , telefone_destinatario := jsOpt (n.destinatario_telefone.map stripNonDigits)
  , email_destinatario := jsOpt n.destinatario_email
  , logradouro_destinatario := jsStr n.destinatario_logradouro
  , numero_destinatario := jsOrStr n.destinatario_numero "S/N"
  , complemento_destinatario := jsOpt n.destinatario_complemento
  , bairro_destinatario := jsOrStr n.destinatario_bairro "Centro"
  , municipio_destinatario := jsStr n.destinatario_municipio
  , uf_destinatario := jsStr n.destinatario_uf
  , cep_destinatario := jsOrStr (n.destinatario_cep.map stripNonDigits) ""
  , codigo_municipio_destinatario := jsOrOpt n.destinatario_codigo_municipio cfg.codigo_municipio
  , forma_pagamento := [{ forma_pagamento := "90", valor_pagamento := n.valor_total }]
  , items := mapFocusItens dentroEstado 0 itens
  , informacoes_adicionais_contribuinte := jsOpt n.informacoes_adicionais }

/-- The NFSe payload construction of `emit_nfse` (pure part of the tool body). -/
def buildNfsePayload (cfg : FiscalConfig) (n : NotaFiscal) (now : String) : NfsePayload :=
  let cpfCnpj := stripNonDigits (jsStr n.destinatario_cpf_cnpj)
  let isCnpj := cpfCnpj.length == 14
  { data_emissao := now
  , natureza_operacao := "1"
  , prestador :=
    { cnpj := cfg.cnpj.map stripNonDigits
    , inscricao_municipal := cfg.inscricao_municipal
    , codigo_municipio := cfg.codigo_municipio }
  , tomador :=
    { cpf := if isCnpj then none else some cpfCnpj
    , cnpj := if isCnpj then some cpfCnpj else none
    , razao_social := jsStr n.destinatario_nome
    , email := jsOpt n.destinatario_email
    , telefone := jsOpt (n.destinatario_telefone.map stripNonDigits)
    , endereco :=
      { logradouro := jsOrStr n.destinatario_logradouro ""
      , numero := jsOrStr n.destinatario_numero "S/N"
      , complemento := jsOrStr n.destinatario_complemento ""
      , bairro := jsOrStr n.destinatario_bairro ""
      , codigo_municipio := jsOrOpt n.destinatario_codigo_municipio cfg.codigo_municipio
      , uf := jsOrStr n.destinatario_uf cfg.uf
      , cep := jsOrStr (n.destinatario_cep.map stripNonDigits) "" } }
  , servico :=
    { aliquota := jsOrInt n.aliquota_iss (jsOrInt cfg.nfse_aliquota_iss 0)
    , discriminacao := jsOrStr n.discriminacao_servicos
        (jsOrStr n.informacoes_adicionais "Prestação de serviços")
    , iss_retido := if n.iss_retido then "true" else "false"
    , item_lista_servico := jsOrStr n.codigo_servico (jsOrStr cfg.nfse_codigo_servico "")
    , valor_servicos := n.valor_total } }

/-- The slice of the relational store the emission workflow touches. -/
structure Store where
  notas : List NotaFiscal
  itens : List NotaItem
  configs : List FiscalConfig
  eventos : List FiscalEvento
deriving DecidableEq, Repr

/-- `select * from notas_fiscais where id = ... and organization_id = ... and tipo = ... single()`. -/
def findNota (store : Store) (nota_id orgId tipo : String) : Option NotaFiscal :=
  store.notas.find? (fun x => x.id == nota_id && x.organization_id == orgId && x.tipo == tipo)

/-- `select * from fiscal_config where organization_id = ... single()`. -/
def findConfig (store : Store) (orgId : String) : Option FiscalConfig :=
  store.configs.find? (fun c => c.organization_id == orgId)

/-- The re-read at the end of the try block: `select * from notas_fiscais where id = ... single()`. -/
def getNota (store : Store) (nota_id : String) : Option NotaFiscal :=
  store.notas.find? (fun x => x.id == nota_id)

/-- Insertion by `numero_item` (ascending), for the `order('numero_item')` read. -/
def insertByNumeroItem (x : NotaItem) : List NotaItem → List NotaItem
  | [] => [x]
  | y :: ys =>
    if x.numero_item ≤ y.numero_item then x :: y :: ys else y :: insertByNumeroItem x ys

/-- `select * from notas_fiscais_itens where nota_fiscal_id = ... order by numero_item asc`. -/
def getItens (store : Store) (nota_id : String) : List NotaItem :=
  (store.itens.filter (fun x => x.nota_fiscal_id == nota_id)).foldr insertByNumeroItem []

/-- `update notas_fiscais set ... where id = nota_id` (the emission updates filter by id only). -/
def updateNotas (notas : List NotaFiscal) (nota_id : String) (f : NotaFiscal → NotaFiscal) :
    List NotaFiscal :=
  notas.map (fun x => if x.id == nota_id then f x else x)

/-- `update fiscal_config set ... where organization_id = orgId`. -/
def updateConfigs (configs : List FiscalConfig) (orgId : String) (f : FiscalConfig → FiscalConfig) :
    List FiscalConfig :=
  configs.map (fun c => if c.organization_id == orgId then f c else c)

/-- What one tool invocation returns, classified by the return site in the source:
`notFound` for the missing-record returns, `validation` for the precondition
returns, `failure` for the catch-block return, `success` for the final return. -/
inductive EmitResult where
  | notFound (msg : String)
  | validation (msg : String)
  | failure (msg : String)
  | success (nota : Option NotaFiscal) (focus_status : String)
deriving DecidableEq, Repr

/-- One emission attempt's observable outcome: the returned result, the store
afterwards, and whether the gateway was invoked. -/
structure EmitOutcome where
  result : EmitResult
  store : Store
  gatewayCalled : Bool
deriving DecidableEq, Repr

/-- What `focusFetch` would produce for a given request: a parsed JSON body on
a 2xx response, or the thrown error message otherwise. -/
inductive GatewayResult where
  | ok (response : FocusResponse)
  | err (msg : String)
deriving DecidableEq, Repr

/-- The certificate-expiry precondition of `emit_nfe`:
`cfg.certificado_validade && new Date(cfg.certificado_validade) < new Date()`,
with dates as integers and the current date passed in. -/
def certExpirado (cfg : FiscalConfig) (nowDate : Int) : Bool :=
  match cfg.certificado_validade with
  | some d => decide (d < nowDate)
  | none => false

/-- The optimistic pre-call write: `status = 'processando'`, reference id, `updated_at`. -/
def procUpdate (focusRef now : String) (x : NotaFiscal) : NotaFiscal :=
  { x with status := "processando", focus_nfe_ref := some focusRef, updated_at := some now }

/-- The catch-block write: `status = 'erro'` with the failure message. -/
def erroUpdate (msg now : String) (x : NotaFiscal) : NotaFiscal :=
  { x with status := "erro", mensagem_sefaz := some msg, updated_at := some now }

/-- The optimistic pre-call write applied to the store. -/
def procStore (store : Store) (nota_id focusRef now : String) : Store :=
  { store with notas := updateNotas store.notas nota_id (procUpdate focusRef now) }

/-- The catch block of `emit_nfe`: error status write, error event insert, error return. -/
def nfeCatch (store : Store) (orgId nota_id msg now : String) (called : Bool) : EmitOutcome :=
  let s2 : Store := { store with notas := updateNotas store.notas nota_id (erroUpdate msg now) }
  { result := .failure ("Erro ao emitir NFe: " ++ msg)
  , store := { s2 with eventos := s2.eventos ++
      [{ organization_id := orgId, nota_fiscal_id := nota_id, tipo := "erro", status := "erro"
       , mensagem := msg, dados := .erro msg, created_at := now }] }
  , gatewayCalled := called }

/-- The catch block of `emit_nfse`. -/
def nfseCatch (store : Store) (orgId nota_id msg now : String) (called : Bool) : EmitOutcome :=
  let s2 : Store := { store with notas := updateNotas store.notas nota_id (erroUpdate msg now) }
  { result := .failure ("Erro ao emitir NFSe: " ++ msg)
  , store := { s2 with eventos := s2.eventos ++
      [{ organization_id := orgId, nota_fiscal_id := nota_id, tipo := "erro", status := "erro"
       , mensagem := msg, dados := .erro msg, created_at := now }] }
  , gatewayCalled := called }

/-- The status interpretation of `emit_nfe` (lines setting `status` from `response.status`). -/
def mapNfeStatus (s : String) : String :=
  if s == "autorizado" then "autorizada"
  else if s == "erro_autorizacao" || s == "denegado" then "rejeitada"
  else "processando"

/-- The status interpretation of `emit_nfse`. -/
def mapNfseStatus (s : String) : String :=
  if s == "autorizado" then "autorizada"
  else if s == "erro_autorizacao" then "rejeitada"
  else "processando"

/-- The `updateData` write of `emit_nfe` applied to the stored row. -/
def applyNfeUpdate (cfg : FiscalConfig) (response : FocusResponse) (status now : String)
    (x : NotaFiscal) : NotaFiscal :=
  { x with
    status := status
  , serie := if truthy response.serie then some (parseInt10 (jsStr response.serie)) else cfg.nfe_serie
  , chave_acesso := jsOpt response.chave_nfe
  , protocolo := jsOpt response.protocolo
  , focus_nfe_status := some response.status
  , status_sefaz := jsOpt response.status_sefaz
  , mensagem_sefaz := jsOpt response.mensagem_sefaz
  , url_xml := jsOpt response.caminho_xml_nota_fiscal
  , url_danfe := jsOpt response.caminho_danfe
  , updated_at := some now
  , data_emissao := if status == "autorizada" then some now else x.data_emissao
  , numero := if status == "autorizada" && truthy response.numero
      then some (parseInt10 (jsStr response.numero)) else x.numero }

/-- The `updateData` write of `emit_nfse` applied to the stored row. -/
def applyNfseUpdate (response : FocusResponse) (status now : String) (x : NotaFiscal) : NotaFiscal :=
  { x with
    status := status
  , focus_nfe_status := some response.status
  , mensagem_sefaz := jsOpt response.mensagem
  , url_xml := jsOpt response.caminho_xml_nota_fiscal
  , url_pdf := jsOpt response.url
  , updated_at := some now
  , data_emissao := if status == "autorizada" then some now else x.data_emissao
  , numero := if status == "autorizada" && truthy response.numero
      then some (parseInt10 (jsStr response.numero)) else x.numero }

/-- The try block of `emit_nfe`: optimistic write, token and URL resolution,
gateway call, result interpretation, final writes, event insert, re-read. -/
def emitNfeTry (store : Store) (orgId nota_id : String) (n : NotaFiscal) (cfg : FiscalConfig)
    (itens : List NotaItem) (masterToken envApiUrl : Option String)
    (gw : String → String → NfePayload → GatewayResult) (tsRef rndRef now : String) : EmitOutcome :=
  let focusRef := generateFocusRef orgId "nfe" tsRef rndRef
  let focusPayload := buildNfePayload cfg n itens now
  let store1 : Store := procStore store nota_id focusRef now
  match resolveFocusToken cfg masterToken with
  | .error msg => nfeCatch store1 orgId nota_id msg now false
  | .ok focusToken =>
    match gw focusToken (resolveFocusApiUrl cfg envApiUrl) focusPayload with
    | .err msg => nfeCatch store1 orgId nota_id msg now true
    | .ok response =>
      let status := mapNfeStatus response.status
      let store2 : Store :=
        if status == "autorizada" && truthy response.numero then
          { store1 with configs := updateConfigs store1.configs orgId (fun c =>
              { c with nfe_ultimo_numero := parseInt10 (jsStr response.numero)
                     , updated_at := some now }) }
        else store1
      let store3 : Store :=
        { store2 with notas :=
            updateNotas store2.notas nota_id (applyNfeUpdate cfg response status now) }
      let store4 : Store :=
        { store3 with eventos := store3.eventos ++
            [{ organization_id := orgId, nota_fiscal_id := nota_id, tipo := "emissao"
             , status := response.status
             , mensagem := jsOrStr response.mensagem_sefaz "NFe enviada para processamento"
             , dados := .resposta response, created_at := now }] }
      { result := .success (getNota store4 nota_id) response.status
      , store := store4
      , gatewayCalled := true }

/-- The `emit_nfe` tool: lookup, preconditions, then the try block. -/
def emit_nfe (store : Store) (orgId nota_id : String) (masterToken envApiUrl : Option String)
    (gw : String → String → NfePayload → GatewayResult) (tsRef rndRef now : String)
    (nowDate : Int) : EmitOutcome :=
  match findNota store nota_id orgId "nfe" with
  | none => { result := .notFound "NFe não encontrada", store := store, gatewayCalled := false }
  | some n =>
    if n.status != "rascunho" then
      { result := .validation "Apenas notas em rascunho podem ser emitidas"
      , store := store, gatewayCalled := false }
    else
      let itens := getItens store nota_id
      if itens.isEmpty then
        { result := .validation "Nota deve ter pelo menos um item"
        , store := store, gatewayCalled := false }
      else
        match findConfig store orgId with
        | none =>
          { result := .notFound "Configuração fiscal não encontrada. Configure pelo app web."
          , store := store, gatewayCalled := false }
        | some cfg =>
          if !cfg.nfe_habilitado then
            { result := .validation "NFe não está habilitada na configuração fiscal"
            , store := store, gatewayCalled := false }
          else if certExpirado cfg nowDate then
            { result := .validation "Certificado digital expirado"
            , store := store, gatewayCalled := false }
          else if !truthy n.destinatario_nome || !truthy n.destinatario_cpf_cnpj then
            { result := .validation "Dados do destinatário incompletos (nome e CPF/CNPJ obrigatórios)"
            , store := store, gatewayCalled := false }
          else if !truthy n.destinatario_logradouro || !truthy n.destinatario_municipio
              || !truthy n.destinatario_uf then
            { result := .validation "Endereço do destinatário incompleto"
            , store := store, gatewayCalled := false }
          else
            emitNfeTry store orgId nota_id n cfg itens masterToken envApiUrl gw tsRef rndRef now

/-- The try block of `emit_nfse`. -/
def emitNfseTry (store : Store) (orgId nota_id : String) (n : NotaFiscal) (cfg : FiscalConfig)
    (masterToken envApiUrl : Option String)
    (gw : String → String → NfsePayload → GatewayResult) (tsRef rndRef now : String) : EmitOutcome :=
  let focusRef := generateFocusRef orgId "nfse" tsRef rndRef
  let focusPayload := buildNfsePayload cfg n now
  let store1 : Store := procStore store nota_id focusRef now
  match resolveFocusToken cfg masterToken with
  | .error msg => nfseCatch store1 orgId nota_id msg now false
  | .ok focusToken =>
    match gw focusToken (resolveFocusApiUrl cfg envApiUrl) focusPayload with
    | .err msg => nfseCatch store1 orgId nota_id msg now true
    | .ok response =>
      let status := mapNfseStatus response.status
      let store2 : Store :=
        if status == "autorizada" && truthy response.numero then
          { store1 with configs := updateConfigs store1.configs orgId (fun c =>
              { c with nfse_ultimo_numero := parseInt10 (jsStr response.numero)
                     , updated_at := some now }) }
        else store1
      let store3 : Store :=
        { store2 with notas :=
            updateNotas store2.notas nota_id (applyNfseUpdate response status now) }
      let store4 : Store :=
        { store3 with eventos := store3.eventos ++
            [{ organization_id := orgId, nota_fiscal_id := nota_id, tipo := "emissao"
             , status := response.status
             , mensagem := jsOrStr response.mensagem "NFSe enviada para processamento"
             , dados := .resposta response, created_at := now }] }
      { result := .success (getNota store4 nota_id) response.status
      , store := store4
      , gatewayCalled := true }

/-- The `emit_nfse` tool: lookup, preconditions (no line-item, address or
certificate checks), then the try block. -/
def emit_nfse (store : Store) (orgId nota_id : String) (masterToken envApiUrl : Option String)
    (gw : String → String → NfsePayload → GatewayResult) (tsRef rndRef now : String) : EmitOutcome :=
  match findNota store nota_id orgId "nfse" with
  | none => { result := .notFound "NFSe não encontrada", store := store, gatewayCalled := false }
  | some n =>
    if n.status != "rascunho" then
      { result := .validation "Apenas notas em rascunho podem ser emitidas"
      , store := store, gatewayCalled := false }
    else
      match findConfig store orgId with
      | none =>
        { result := .notFound "Configuração fiscal não encontrada. Configure pelo app web."
        , store := store, gatewayCalled := false }
      | some cfg =>
        if !cfg.nfse_habilitado then
          { result := .validation "NFSe não está habilitada na configuração fiscal"
          , store := store, gatewayCalled := false }
        else if !truthy n.destinatario_nome || !truthy n.destinatario_cpf_cnpj then
          { result := .validation "Dados do tomador incompletos"
          , store := store, gatewayCalled := false }
        else
          emitNfseTry store orgId nota_id n cfg masterToken envApiUrl gw tsRef rndRef now

/-! ## Concrete fixtures for witnesses and counterexamples -/

/-- A draft goods document with complete recipient data. -/
def notaBase : NotaFiscal :=
  { id := "n1", organization_id := "org1", tipo := "nfe", status := "rascunho"
  , cliente_id := none
  , destinatario_nome := some "Cliente Teste"
  , destinatario_cpf_cnpj := some "123.456.789-01"
  , destinatario_tipo := none, destinatario_ie := none, destinatario_telefone := none
  , destinatario_email := none
  , destinatario_logradouro := some "Rua A", destinatario_numero := none
  , destinatario_complemento := none, destinatario_bairro := none
  , destinatario_municipio := some "Sao Paulo", destinatario_uf := some "SP"
  , destinatario_cep := none, destinatario_codigo_municipio := none
  , natureza_operacao := none, finalidade := none, indicador_presenca := none
  , informacoes_adicionais := none
  , valor_total := 100
  , numero := none, serie := none, chave_acesso := none, protocolo := none
  , focus_nfe_ref := none, focus_nfe_status := none, status_sefaz := none
  , mensagem_sefaz := none, url_xml := none, url_danfe := none, url_pdf := none
  , data_emissao := none
  , aliquota_iss := none, discriminacao_servicos := none, iss_retido := false
  , codigo_servico := none, updated_at := none }

/-- A draft service document. -/
def notaNfseBase : NotaFiscal :=
  { notaBase with id := "s1", tipo := "nfse" }

/-- One line item of `notaBase`, with no CFOP of its own. -/
def itemBase : NotaItem :=
  { id := "it1", nota_fiscal_id := "n1", numero_item := 1, codigo := none
  , descricao := "Produto", cfop := none, unidade := none, quantidade := 1
  , valor_unitario := 100, valor_total := 100, ncm := none, cest := none
  , icms_origem := none, icms_cst := none, pis_cst := none, cofins_cst := none }

/-- A tenant config with both kinds enabled and only the sandbox credential set. -/
def cfgBase : FiscalConfig :=
  { organization_id := "org1", nfe_habilitado := true, nfse_habilitado := true
  , focus_nfe_ambiente := none
  , focus_nfe_token_producao := none
  , focus_nfe_token_homologacao := some "tok-homolog"
  , focus_nfe_token := none
  , certificado_validade := none
  , nfe_ultimo_numero := 200, nfse_ultimo_numero := 200
  , nfe_serie := some 1, uf := "SP", cnpj := some "11.222.333/0001-44"
  , inscricao_municipal := none, codigo_municipio := some "3550308"
  , nfse_aliquota_iss := none, nfse_codigo_servico := none, updated_at := none }

/-- The store the witnesses run against. -/
def storeBase : Store :=
  { notas := [notaBase, notaNfseBase], itens := [itemBase], configs := [cfgBase], eventos := [] }

/-! ## Helper lemmas -/

theorem truthy_false (o : Option String) (h : truthy o = false) : o = none ∨ o = some "" := by
  cases o with
  | none => exact Or.inl rfl
  | some s =>
    simp only [truthy, Bool.not_eq_false', beq_iff_eq] at h
    exact Or.inr (by rw [h])

theorem jsOrStr_of_not_truthy (o : Option String) (d : String) (h : truthy o = false) :
    jsOrStr o d = d := by
  rcases truthy_false o h with h | h <;> subst h <;> rfl

theorem jsOrOpt_of_not_truthy (a b : Option String) (h : truthy a = false) :
    jsOrOpt a b = b := by
  rcases truthy_false a h with h | h <;> subst h <;> rfl

theorem jsOrStr_of_truthy (o : Option String) (d : String) (h : truthy o = true) :
    jsOrStr o d = jsStr o := by
  cases o with
  | none => simp [truthy] at h
  | some s =>
    simp only [truthy, Bool.not_eq_true', beq_eq_false_iff_ne, ne_eq] at h
    simp [jsOrStr, jsStr, h]

/-- If no credential is truthy (the selected environment slot, the legacy
token, and the master token), `resolveFocusToken` fails with the
configuration-error message. -/
theorem resolveFocusToken_error (cfg : FiscalConfig) (masterToken : Option String)
    (hslot : truthy (focusSlot cfg) = false)
    (hleg : truthy cfg.focus_nfe_token = false)
    (hmast : truthy masterToken = false) :
    resolveFocusToken cfg masterToken = .error (tokenErrMsg (focusAmbiente cfg)) := by
  unfold resolveFocusToken
  rw [jsOrOpt_of_not_truthy _ _ hslot, jsOrOpt_of_not_truthy _ _ hleg]
  rcases truthy_false masterToken hmast with h | h <;> subst h <;> rfl

/-- If the selected environment slot holds a truthy credential, it wins. -/
theorem resolveFocusToken_slot (cfg : FiscalConfig) (masterToken : Option String) (s : String)
    (hs : focusSlot cfg = some s) (hne : s ≠ "") :
    resolveFocusToken cfg masterToken = .ok s := by
  unfold resolveFocusToken
  rw [hs]
  simp [jsOrOpt, hne]

/-- `find?` after per-element conditional update, given p is preserved. -/
theorem find_weaken {α : Type} (l : List α) (p q : α → Bool) (n : α)
    (h : l.find? p = some n) (himp : ∀ x, p x = true → q x = true) :
    ∃ m, l.find? q = some m := by
  induction l with
  | nil => simp [List.find?] at h
  | cons y ys ih =>
    cases hq : q y with
    | true => exact ⟨y, by simp [List.find?, hq]⟩
    | false =>
      have hp : p y = false := by
        cases hpy : p y with
        | false => rfl
        | true => rw [himp y hpy] at hq; cases hq
      simp only [List.find?, hp] at h
      rcases ih h with ⟨m, hm⟩
      exact ⟨m, by simp only [List.find?, hq]; exact hm⟩

/-- `find?` by id over an id-preserving per-id update. -/
theorem find_updateNotas (notas : List NotaFiscal) (nota_id : String) (f : NotaFiscal → NotaFiscal)
    (hid : ∀ x, (f x).id = x.id) :
    (updateNotas notas nota_id f).find? (fun x => x.id == nota_id)
      = (notas.find? (fun x => x.id == nota_id)).map f := by
  induction notas with
  | nil => rfl
  | cons y ys ih =>
    by_cases h : y.id = nota_id
    · have h1 : (y.id == nota_id) = true := by simpa using h
      have h2 : ((f y).id == nota_id) = true := by rw [hid]; exact h1
      simp only [updateNotas, List.map_cons, List.find?, h1, h2, if_true, Option.map_some']
    · have h1 : (y.id == nota_id) = false := by simpa using h
      simp only [updateNotas, List.map_cons, List.find?, h1, Bool.false_eq_true, if_false]
      exact ih

/-- `find?` by organization over an organization-preserving per-organization update. -/
theorem find_updateConfigs (configs : List FiscalConfig) (orgId : String)
    (f : FiscalConfig → FiscalConfig) (hid : ∀ c, (f c).organization_id = c.organization_id) :
    (updateConfigs configs orgId f).find? (fun c => c.organization_id == orgId)
      = (configs.find? (fun c => c.organization_id == orgId)).map f := by
  induction configs with
  | nil => rfl
  | cons y ys ih =>
    by_cases h : y.organization_id = orgId
    · have h1 : (y.organization_id == orgId) = true := by simpa using h
      have h2 : ((f y).organization_id == orgId) = true := by rw [hid]; exact h1
      simp only [updateConfigs, List.map_cons, List.find?, h1, h2, if_true, Option.map_some']
    · have h1 : (y.organization_id == orgId) = false := by simpa using h
      simp only [updateConfigs, List.map_cons, List.find?, h1, Bool.false_eq_true, if_false]
      exact ih

/-- A nota found by the full (id, organization, kind) lookup is also found by
the id-only re-read. -/
theorem getNota_isSome_of_findNota (store : Store) (nota_id orgId tipo : String) (n : NotaFiscal)
    (h : findNota store nota_id orgId tipo = some n) :
    ∃ m : NotaFiscal, getNota store nota_id = some m := by
  unfold findNota at h
  unfold getNota
  exact find_weaken store.notas _ _ n h (fun x hx => by
    simp only [Bool.and_eq_true] at hx
    exact hx.1.1)

/-- When every `emit_nfe` precondition holds, the tool runs its try block. -/
theorem emit_nfe_happy (store : Store) (orgId nota_id : String)
    (masterToken envApiUrl : Option String) (gw : String → String → NfePayload → GatewayResult)
    (tsRef rndRef now : String) (nowDate : Int) (n : NotaFiscal) (cfg : FiscalConfig)
    (hfind : findNota store nota_id orgId "nfe" = some n)
    (hst : n.status = "rascunho")
    (hne : (getItens store nota_id).isEmpty = false)
    (hcfg : findConfig store orgId = some cfg)
    (hhab : cfg.nfe_habilitado = true)
    (hcert : certExpirado cfg nowDate = false)
    (hnome : truthy n.destinatario_nome = true)
    (hdoc : truthy n.destinatario_cpf_cnpj = true)
    (hlog : truthy n.destinatario_logradouro = true)
    (hmun : truthy n.destinatario_municipio = true)
    (huf : truthy n.destinatario_uf = true) :
    emit_nfe store orgId nota_id masterToken envApiUrl gw tsRef rndRef now nowDate
      = emitNfeTry store orgId nota_id n cfg (getItens store nota_id)
          masterToken envApiUrl gw tsRef rndRef now := by
  simp only [emit_nfe, hfind, hst, hne, hcfg, hhab, hcert, hnome, hdoc, hlog, hmun, huf,
    bne_self_eq_false, Bool.not_true, Bool.false_or, Bool.or_false, Bool.false_eq_true,
    if_false, if_true]

/-- When every `emit_nfse` precondition holds, the tool runs its try block. -/
theorem emit_nfse_happy (store : Store) (orgId nota_id : String)
    (masterToken envApiUrl : Option String) (gw : String → String → NfsePayload → GatewayResult)
    (tsRef rndRef now : String) (n : NotaFiscal) (cfg : FiscalConfig)
    (hfind : findNota store nota_id orgId "nfse" = some n)
    (hst : n.status = "rascunho")
    (hcfg : findConfig store orgId = some cfg)
    (hhab : cfg.nfse_habilitado = true)
    (hnome : truthy n.destinatario_nome = true)
    (hdoc : truthy n.destinatario_cpf_cnpj = true) :
    emit_nfse store orgId nota_id masterToken envApiUrl gw tsRef rndRef now
      = emitNfseTry store orgId nota_id n cfg masterToken envApiUrl gw tsRef rndRef now := by
  simp only [emit_nfse, hfind, hst, hcfg, hhab, hnome, hdoc,
    bne_self_eq_false, Bool.not_true, Bool.false_or, Bool.or_false, Bool.false_eq_true,
    if_false, if_true]

/-- Gateway response fixture: authorized with document number 123. -/
def respAutorizado : FocusResponse :=
  { status := "autorizado", numero := some "123", serie := none
  , chave_nfe := none, protocolo := none, status_sefaz := none, mensagem_sefaz := none
  , mensagem := none, caminho_xml_nota_fiscal := none, caminho_danfe := none, url := none }

/-- A tenant config with no credential anywhere. -/
def cfgNoToken : FiscalConfig :=
  { cfgBase with focus_nfe_token_homologacao := none }

/-- The base store with the credential-free config. -/
def storeNoToken : Store :=
  { storeBase with configs := [cfgNoToken] }

theorem procUpdate_id (focusRef now : String) (x : NotaFiscal) :
    (procUpdate focusRef now x).id = x.id := rfl

theorem erroUpdate_id (msg now : String) (x : NotaFiscal) :
    (erroUpdate msg now x).id = x.id := rfl

theorem applyNfeUpdate_id (cfg : FiscalConfig) (r : FocusResponse) (status now : String)
    (x : NotaFiscal) : (applyNfeUpdate cfg r status now x).id = x.id := rfl

theorem applyNfseUpdate_id (r : FocusResponse) (status now : String) (x : NotaFiscal) :
    (applyNfseUpdate r status now x).id = x.id := rfl

/-- The id-only lookup through two per-id updates. -/
theorem getNota_update2 (notas : List NotaFiscal) (nota_id : String) (f g : NotaFiscal → NotaFiscal)
    (hf : ∀ x, (f x).id = x.id) (hg : ∀ x, (g x).id = x.id) (m : NotaFiscal)
    (hm : notas.find? (fun x => x.id == nota_id) = some m) :
    (updateNotas (updateNotas notas nota_id f) nota_id g).find? (fun x => x.id == nota_id)
      = some (g (f m)) := by
  rw [find_updateNotas _ _ g hg, find_updateNotas _ _ f hf, hm]
  rfl

/-- When token resolution fails, the try block of `emit_nfe` runs the catch on
the optimistically-updated store, without a gateway call. -/
theorem emitNfeTry_tokenErr (store : Store) (orgId nota_id : String) (n : NotaFiscal)
    (cfg : FiscalConfig) (itens : List NotaItem) (masterToken envApiUrl : Option String)
    (gw : String → String → NfePayload → GatewayResult) (tsRef rndRef now msg : String)
    (htok : resolveFocusToken cfg masterToken = .error msg) :
    emitNfeTry store orgId nota_id n cfg itens masterToken envApiUrl gw tsRef rndRef now
      = nfeCatch (procStore store nota_id (generateFocusRef orgId "nfe" tsRef rndRef) now)
          orgId nota_id msg now false := by
  unfold emitNfeTry
  rw [htok]

/-- When the gateway call fails, the try block of `emit_nfe` runs the catch on
the optimistically-updated store. -/
theorem emitNfeTry_gwErr (store : Store) (orgId nota_id : String) (n : NotaFiscal)
    (cfg : FiscalConfig) (itens : List NotaItem) (masterToken envApiUrl : Option String)
    (gw : String → String → NfePayload → GatewayResult) (tsRef rndRef now tok msg : String)
    (htok : resolveFocusToken cfg masterToken = .ok tok)
    (hgw : gw tok (resolveFocusApiUrl cfg envApiUrl) (buildNfePayload cfg n itens now)
      = .err msg) :
    emitNfeTry store orgId nota_id n cfg itens masterToken envApiUrl gw tsRef rndRef now
      = nfeCatch (procStore store nota_id (generateFocusRef orgId "nfe" tsRef rndRef) now)
          orgId nota_id msg now true := by
  unfold emitNfeTry
  rw [htok]
  simp only []
  rw [hgw]

/-- On a successful gateway exchange, the final notas list of `emit_nfe`. -/
theorem emitNfeTry_ok_notas (store : Store) (orgId nota_id : String) (n : NotaFiscal)
    (cfg : FiscalConfig) (itens : List NotaItem) (masterToken envApiUrl : Option String)
    (gw : String → String → NfePayload → GatewayResult) (tsRef rndRef now tok : String)
    (r : FocusResponse)
    (htok : resolveFocusToken cfg masterToken = .ok tok)
    (hgw : gw tok (resolveFocusApiUrl cfg envApiUrl) (buildNfePayload cfg n itens now)
      = .ok r) :
    (emitNfeTry store orgId nota_id n cfg itens masterToken envApiUrl gw tsRef rndRef now).store.notas
      = updateNotas
          (updateNotas store.notas nota_id
            (procUpdate (generateFocusRef orgId "nfe" tsRef rndRef) now))
          nota_id (applyNfeUpdate cfg r (mapNfeStatus r.status) now) := by
  unfold emitNfeTry
  rw [htok]
  simp only []
  rw [hgw]
  simp only []
  split <;> rfl

/-- On a successful gateway exchange, the event trail of `emit_nfe` gains
exactly one `emissao` row. -/
theorem emitNfeTry_ok_eventos (store : Store) (orgId nota_id : String) (n : NotaFiscal)
    (cfg : FiscalConfig) (itens : List NotaItem) (masterToken envApiUrl : Option String)
    (gw : String → String → NfePayload → GatewayResult) (tsRef rndRef now tok : String)
    (r : FocusResponse)
    (htok : resolveFocusToken cfg masterToken = .ok tok)
    (hgw : gw tok (resolveFocusApiUrl cfg envApiUrl) (buildNfePayload cfg n itens now)
      = .ok r) :
    (emitNfeTry store orgId nota_id n cfg itens masterToken envApiUrl gw tsRef rndRef now).store.eventos
      = store.eventos ++
        [{ organization_id := orgId, nota_fiscal_id := nota_id, tipo := "emissao"
         , status := r.status
         , mensagem := jsOrStr r.mensagem_sefaz "NFe enviada para processamento"
         , dados := .resposta r, created_at := now }] := by
  unfold emitNfeTry
  rw [htok]
  simp only []
  rw [hgw]
  simp only []
  split <;> rfl

/-- On an authorized gateway exchange carrying a number, `emit_nfe` overwrites
the tenant's `nfe_ultimo_numero` with the parsed number. -/
theorem emitNfeTry_ok_configs (store : Store) (orgId nota_id : String) (n : NotaFiscal)
    (cfg : FiscalConfig) (itens : List NotaItem) (masterToken envApiUrl : Option String)
    (gw : String → String → NfePayload → GatewayResult) (tsRef rndRef now tok : String)
    (r : FocusResponse)
    (htok : resolveFocusToken cfg masterToken = .ok tok)
    (hgw : gw tok (resolveFocusApiUrl cfg envApiUrl) (buildNfePayload cfg n itens now)
      = .ok r)
    (hcond : (mapNfeStatus r.status == "autorizada" && truthy r.numero) = true) :
    (emitNfeTry store orgId nota_id n cfg itens masterToken envApiUrl gw tsRef rndRef now).store.configs
      = updateConfigs store.configs orgId (fun c =>
          { c with nfe_ultimo_numero := parseInt10 (jsStr r.numero), updated_at := some now }) := by
  unfold emitNfeTry
  rw [htok]
  simp only []
  rw [hgw]
  simp only [hcond, if_true]
  rfl

/-- When token resolution fails, the try block of `emit_nfse` runs the catch on
the optimistically-updated store, without a gateway call. -/
theorem emitNfseTry_tokenErr (store : Store) (orgId nota_id : String) (n : NotaFiscal)
    (cfg : FiscalConfig) (masterToken envApiUrl : Option String)
    (gw : String → String → NfsePayload → GatewayResult) (tsRef rndRef now msg : String)
    (htok : resolveFocusToken cfg masterToken = .error msg) :
    emitNfseTry store orgId nota_id n cfg masterToken envApiUrl gw tsRef rndRef now
      = nfseCatch (procStore store nota_id (generateFocusRef orgId "nfse" tsRef rndRef) now)
          orgId nota_id msg now false := by
  unfold emitNfseTry
  rw [htok]

/-- When the gateway call fails, the try block of `emit_nfse` runs the catch on
the optimistically-updated store. -/
theorem emitNfseTry_gwErr (store : Store) (orgId nota_id : String) (n : NotaFiscal)
    (cfg : FiscalConfig) (masterToken envApiUrl : Option String)
    (gw : String → String → NfsePayload → GatewayResult) (tsRef rndRef now tok msg : String)
    (htok : resolveFocusToken cfg masterToken = .ok tok)
    (hgw : gw tok (resolveFocusApiUrl cfg envApiUrl) (buildNfsePayload cfg n now) = .err msg) :
    emitNfseTry store orgId nota_id n cfg masterToken envApiUrl gw tsRef rndRef now
      = nfseCatch (procStore store nota_id (generateFocusRef orgId "nfse" tsRef rndRef) now)
          orgId nota_id msg now true := by
  unfold emitNfseTry
  rw [htok]
  simp only []
  rw [hgw]

/-- On a successful gateway exchange, the final notas list of `emit_nfse`. -/
theorem emitNfseTry_ok_notas (store : Store) (orgId nota_id : String) (n : NotaFiscal)
    (cfg : FiscalConfig) (masterToken envApiUrl : Option String)
    (gw : String → String → NfsePayload → GatewayResult) (tsRef rndRef now tok : String)
    (r : FocusResponse)
    (htok : resolveFocusToken cfg masterToken = .ok tok)
    (hgw : gw tok (resolveFocusApiUrl cfg envApiUrl) (buildNfsePayload cfg n now) = .ok r) :
    (emitNfseTry store orgId nota_id n cfg masterToken envApiUrl gw tsRef rndRef now).store.notas
      = updateNotas
          (updateNotas store.notas nota_id
            (procUpdate (generateFocusRef orgId "nfse" tsRef rndRef) now))
          nota_id (applyNfseUpdate r (mapNfseStatus r.status) now) := by
  unfold emitNfseTry
  rw [htok]
  simp only []
  rw [hgw]
  simp only []
  split <;> rfl

/-- On a successful gateway exchange, the event trail of `emit_nfse` gains
exactly one `emissao` row. -/
theorem emitNfseTry_ok_eventos (store : Store) (orgId nota_id : String) (n : NotaFiscal)
    (cfg : FiscalConfig) (masterToken envApiUrl : Option String)
    (gw : String → String → NfsePayload → GatewayResult) (tsRef rndRef now tok : String)
    (r : FocusResponse)
    (htok : resolveFocusToken cfg masterToken = .ok tok)
    (hgw : gw tok (resolveFocusApiUrl cfg envApiUrl) (buildNfsePayload cfg n now) = .ok r) :
    (emitNfseTry store orgId nota_id n cfg masterToken envApiUrl gw tsRef rndRef now).store.eventos
      = store.eventos ++
        [{ organization_id := orgId, nota_fiscal_id := nota_id, tipo := "emissao"
         , status := r.status
         , mensagem := jsOrStr r.mensagem "NFSe enviada para processamento"
         , dados := .resposta r, created_at := now }] := by
  unfold emitNfseTry
  rw [htok]
  simp only []
  rw [hgw]
  simp only []
  split <;> rfl

/-- On an authorized gateway exchange carrying a number, `emit_nfse` overwrites
the tenant's `nfse_ultimo_numero` with the parsed number. -/
theorem emitNfseTry_ok_configs (store : Store) (orgId nota_id : String) (n : NotaFiscal)
    (cfg : FiscalConfig) (masterToken envApiUrl : Option String)
    (gw : String → String → NfsePayload → GatewayResult) (tsRef rndRef now tok : String)
    (r : FocusResponse)
    (htok : resolveFocusToken cfg masterToken = .ok tok)
    (hgw : gw tok (resolveFocusApiUrl cfg envApiUrl) (buildNfsePayload cfg n now) = .ok r)
    (hcond : (mapNfseStatus r.status == "autorizada" && truthy r.numero) = true) :
    (emitNfseTry store orgId nota_id n cfg masterToken envApiUrl gw tsRef rndRef now).store.configs
      = updateConfigs store.configs orgId (fun c =>
          { c with nfse_ultimo_numero := parseInt10 (jsStr r.numero), updated_at := some now }) := by
  unfold emitNfseTry
  rw [htok]
  simp only []
  rw [hgw]
  simp only [hcond, if_true]
  rfl

/-! ## Claim C5 -/

/-- C5: for every document whose stored status is not draft ('rascunho'), both
emit operations fail with the draft-only validation error and perform no
writes: the whole store, hence every field of the document, is unchanged. -/
theorem c5_non_draft_no_writes (store : Store) (orgId nota_id : String)
    (masterToken envApiUrl : Option String)
    (gw : String → String → NfePayload → GatewayResult)
    (tsRef rndRef now : String) (nowDate : Int)
    (storeS : Store) (orgIdS nota_idS : String) (masterS envS : Option String)
    (gwS : String → String → NfsePayload → GatewayResult)
    (tsS rndS nowS : String)
    (n m : NotaFiscal)
    (hfind : findNota store nota_id orgId "nfe" = some n)
    (hst : n.status ≠ "rascunho")
    (hfindS : findNota storeS nota_idS orgIdS "nfse" = some m)
    (hstS : m.status ≠ "rascunho") :
    emit_nfe store orgId nota_id masterToken envApiUrl gw tsRef rndRef now nowDate
      = { result := .validation "Apenas notas em rascunho podem ser emitidas"
        , store := store, gatewayCalled := false }
    ∧ emit_nfse storeS orgIdS nota_idS masterS envS gwS tsS rndS nowS
      = { result := .validation "Apenas notas em rascunho podem ser emitidas"
        , store := storeS, gatewayCalled := false } := by
  constructor
  · simp only [emit_nfe, hfind]
    rw [if_pos (by simpa [bne_iff_ne] using hst)]
  · simp only [emit_nfse, hfindS]
    rw [if_pos (by simpa [bne_iff_ne] using hstS)]

/-- An already-authorized goods document. -/
def notaEmitida : NotaFiscal :=
  { notaBase with id := "n2", status := "autorizada" }

/-- An already-authorized service document. -/
def notaNfseEmitida : NotaFiscal :=
  { notaNfseBase with id := "s2", status := "autorizada" }

/-- Store fixture for non-draft documents. -/
def storeC5 : Store :=
  { storeBase with notas := [notaEmitida, notaNfseEmitida] }

/-- Witness for C5 at a concrete non-draft goods and service document. -/
theorem c5_non_draft_no_writes_witness :
    emit_nfe storeC5 "org1" "n2" none none (fun _ _ _ => .ok respAutorizado) "ts" "rnd" "T" 0
      = { result := .validation "Apenas notas em rascunho podem ser emitidas"
        , store := storeC5, gatewayCalled := false }
    ∧ emit_nfse storeC5 "org1" "s2" none none (fun _ _ _ => .ok respAutorizado) "ts" "rnd" "T"
      = { result := .validation "Apenas notas em rascunho podem ser emitidas"
        , store := storeC5, gatewayCalled := false } :=
  c5_non_draft_no_writes storeC5 "org1" "n2" none none (fun _ _ _ => .ok respAutorizado)
    "ts" "rnd" "T" 0 storeC5 "org1" "s2" none none (fun _ _ _ => .ok respAutorizado)
    "ts" "rnd" "T" notaEmitida notaNfseEmitida (by decide) (by decide) (by decide) (by decide)

/-! ## Claim C6 -/

/-- C6: for every goods document with zero line items, `emit_nfe` fails with
the item-count validation error, without invoking the gateway (for every
possible gateway behaviour, `gatewayCalled` is `false`) and without any
status write (the store is unchanged). -/
theorem c6_zero_items_no_gateway (store : Store) (orgId nota_id : String)
    (masterToken envApiUrl : Option String)
    (gw : String → String → NfePayload → GatewayResult)
    (tsRef rndRef now : String) (nowDate : Int) (n : NotaFiscal)
    (hfind : findNota store nota_id orgId "nfe" = some n)
    (hst : n.status = "rascunho")
    (hempty : (getItens store nota_id).isEmpty = true) :
    emit_nfe store orgId nota_id masterToken envApiUrl gw tsRef rndRef now nowDate
      = { result := .validation "Nota deve ter pelo menos um item"
        , store := store, gatewayCalled := false } := by
  simp only [emit_nfe, hfind, hst, bne_self_eq_false, Bool.false_eq_true, if_false, hempty,
    if_true]

/-- Store fixture with a draft goods document and no line items. -/
def storeC6 : Store :=
  { storeBase with itens := [] }

/-- Witness for C6 at a concrete zero-item draft document. -/
theorem c6_zero_items_no_gateway_witness :
    emit_nfe storeC6 "org1" "n1" none none (fun _ _ _ => .ok respAutorizado) "ts" "rnd" "T" 0
      = { result := .validation "Nota deve ter pelo menos um item"
        , store := storeC6, gatewayCalled := false } :=
  c6_zero_items_no_gateway storeC6 "org1" "n1" none none (fun _ _ _ => .ok respAutorizado)
    "ts" "rnd" "T" 0 notaBase (by decide) (by decide) (by decide)

/-! ## Claim C9 -/

/-- `resolveFocusToken` depends on the config only through the slot, the
legacy token and the environment name. -/
theorem resolveFocusToken_congr (c1 c2 : FiscalConfig) (masterToken : Option String)
    (h1 : focusSlot c1 = focusSlot c2) (h2 : c1.focus_nfe_token = c2.focus_nfe_token)
    (h3 : focusAmbiente c1 = focusAmbiente c2) :
    resolveFocusToken c1 masterToken = resolveFocusToken c2 masterToken := by
  unfold resolveFocusToken
  rw [h1, h2, h3]

/-- C9: with the environment field unset or empty, both resolvers behave as in
sandbox ('homologacao'): the sandbox credential slot is the one consulted
first, token resolution coincides with an explicit sandbox environment, and
the endpoint is the fixed sandbox base URL. -/
theorem c9_empty_ambiente_sandbox (cfg : FiscalConfig) (masterToken envApiUrl : Option String)
    (hamb : cfg.focus_nfe_ambiente = none ∨ cfg.focus_nfe_ambiente = some "") :
    focusAmbiente cfg = "homologacao"
    ∧ focusSlot cfg = cfg.focus_nfe_token_homologacao
    ∧ resolveFocusApiUrl cfg envApiUrl = "https://homologacao.focusnfe.com.br"
    ∧ resolveFocusToken cfg masterToken
        = resolveFocusToken { cfg with focus_nfe_ambiente := some "homologacao" } masterToken
    ∧ (∀ s : String, cfg.focus_nfe_token_homologacao = some s → s ≠ "" →
        resolveFocusToken cfg masterToken = Except.ok s) := by
  have ha : focusAmbiente cfg = "homologacao" := by
    rcases hamb with h | h <;> simp [focusAmbiente, jsOrStr, h]
  have hslot : focusSlot cfg = cfg.focus_nfe_token_homologacao := by
    unfold focusSlot
    rw [ha]
    rfl
  refine ⟨ha, hslot, ?_, ?_, ?_⟩
  · unfold resolveFocusApiUrl
    rw [ha]
    rfl
  · exact resolveFocusToken_congr cfg { cfg with focus_nfe_ambiente := some "homologacao" }
      masterToken (by rw [hslot]; rfl) rfl (by rw [ha]; rfl)
  · intro s hs hne
    exact resolveFocusToken_slot cfg masterToken s (by rw [hslot, hs]) hne

/-- Witness for C9 at a concrete config with an unset environment. -/
theorem c9_empty_ambiente_sandbox_witness :
    focusAmbiente cfgBase = "homologacao"
    ∧ focusSlot cfgBase = some "tok-homolog"
    ∧ resolveFocusApiUrl cfgBase none = "https://homologacao.focusnfe.com.br"
    ∧ resolveFocusToken cfgBase none = Except.ok "tok-homolog" := by
  have h := c9_empty_ambiente_sandbox cfgBase none none (Or.inl rfl)
  exact ⟨h.1, by rw [h.2.1]; rfl, h.2.2.1, h.2.2.2.2 "tok-homolog" rfl (by decide)⟩

/-! ## Claim C7 -/

/-- Indexing into the indexed line-item map. -/
theorem mapFocusItens_get (d : Bool) (k i : Nat) (l : List NotaItem) :
    (mapFocusItens d k l).get? i = (l.get? i).map (fun item => buildFocusItem d (k + i) item) := by
  induction l generalizing k i with
  | nil => simp [mapFocusItens]
  | cons x xs ih =>
    cases i with
    | zero => simp [mapFocusItens]
    | succ j =>
      simp only [mapFocusItens, List.get?_cons_succ]
      rw [ih]
      have harith : k + 1 + j = k + (j + 1) := by omega
      rw [harith]

/-- C7: for every goods line item that does not carry its own CFOP, the built
payload gives it the internal-operation code `5102` when the recipient's
region code equals the tenant's under case-insensitive comparison, and the
interstate code `6102` otherwise; the item's tax fields play no role. -/
theorem c7_cfop_selection (cfg : FiscalConfig) (n : NotaFiscal) (itens : List NotaItem)
    (now : String) (i : Nat) (item : NotaItem)
    (hget : itens.get? i = some item)
    (hcfop : truthy item.cfop = false) :
    ((buildNfePayload cfg n itens now).items.get? i).map (fun fi => fi.cfop)
      = some (if isMesmoEstado cfg.uf (jsStr n.destinatario_uf) then "5102" else "6102")
    ∧ isMesmoEstado cfg.uf (jsStr n.destinatario_uf)
        = (toUpperStr cfg.uf == toUpperStr (jsStr n.destinatario_uf)) := by
  refine ⟨?_, rfl⟩
  have hpay : (buildNfePayload cfg n itens now).items
      = mapFocusItens (isMesmoEstado cfg.uf (jsStr n.destinatario_uf)) 0 itens := rfl
  rw [hpay, mapFocusItens_get, hget]
  simp only [Option.map_some']
  show some (jsOrStr item.cfop
      (getCfopVenda (isMesmoEstado cfg.uf (jsStr n.destinatario_uf)) false)) = _
  rw [jsOrStr_of_not_truthy _ _ hcfop]
  cases isMesmoEstado cfg.uf (jsStr n.destinatario_uf) <;> rfl

/-- A draft goods document whose recipient region code differs only in case. -/
def notaUfMinuscula : NotaFiscal :=
  { notaBase with destinatario_uf := some "sp" }

/-- Witness for C7: a lower-case same-region recipient still gets the
internal-operation code. -/
theorem c7_cfop_selection_witness :
    ((buildNfePayload cfgBase notaUfMinuscula [itemBase] "T").items.get? 0).map (fun fi => fi.cfop)
      = some "5102" := by
  have h := (c7_cfop_selection cfgBase notaUfMinuscula [itemBase] "T" 0 itemBase rfl rfl).1
  rw [h]
  decide

/-! ## Claim C8 -/

/-- C8: the payload builders strip non-digit characters from the recipient tax
id and choose the field by length of the result: 11 digits fill the CPF field
and 14 digits the CNPJ field, in both the goods and the service payload. -/
theorem c8_taxid_field (cfg : FiscalConfig) (n : NotaFiscal) (itens : List NotaItem)
    (now : String) :
    (stripNonDigits (jsStr n.destinatario_cpf_cnpj)).data
        = (jsStr n.destinatario_cpf_cnpj).data.filter Char.isDigit
    ∧ ((stripNonDigits (jsStr n.destinatario_cpf_cnpj)).length = 11 →
        (buildNfePayload cfg n itens now).cpf_destinatario
            = some (stripNonDigits (jsStr n.destinatario_cpf_cnpj))
        ∧ (buildNfePayload cfg n itens now).cnpj_destinatario = none
        ∧ (buildNfsePayload cfg n now).tomador.cpf
            = some (stripNonDigits (jsStr n.destinatario_cpf_cnpj))
        ∧ (buildNfsePayload cfg n now).tomador.cnpj = none)
    ∧ ((stripNonDigits (jsStr n.destinatario_cpf_cnpj)).length = 14 →
        (buildNfePayload cfg n itens now).cnpj_destinatario
            = some (stripNonDigits (jsStr n.destinatario_cpf_cnpj))
        ∧ (buildNfePayload cfg n itens now).cpf_destinatario = none
        ∧ (buildNfsePayload cfg n now).tomador.cnpj
            = some (stripNonDigits (jsStr n.destinatario_cpf_cnpj))
        ∧ (buildNfsePayload cfg n now).tomador.cpf = none) := by
  refine ⟨rfl, ?_, ?_⟩
  · intro h
    have hb : ((stripNonDigits (jsStr n.destinatario_cpf_cnpj)).length == 14) = false := by
      rw [h]
      decide
    refine ⟨?_, ?_, ?_, ?_⟩ <;>
      simp only [buildNfePayload, buildNfsePayload, hb, Bool.false_eq_true, if_false]
  · intro h
    have hb : ((stripNonDigits (jsStr n.destinatario_cpf_cnpj)).length == 14) = true := by
      rw [h]
      decide
    refine ⟨?_, ?_, ?_, ?_⟩ <;>
      simp only [buildNfePayload, buildNfsePayload, hb, if_true]

/-- A draft goods document with a company (14-digit) tax id. -/
def notaCnpj : NotaFiscal :=
  { notaBase with destinatario_cpf_cnpj := some "11.222.333/0001-44" }

/-- Witness for C8 at concrete 11-digit and 14-digit tax ids. -/
theorem c8_taxid_field_witness :
    (stripNonDigits "123.456.789-01").length = 11
    ∧ (buildNfePayload cfgBase notaBase [itemBase] "T").cpf_destinatario = some "12345678901"
    ∧ (buildNfePayload cfgBase notaBase [itemBase] "T").cnpj_destinatario = none
    ∧ (buildNfsePayload cfgBase notaBase "T").tomador.cpf = some "12345678901"
    ∧ (buildNfePayload cfgBase notaCnpj [itemBase] "T").cnpj_destinatario
        = some "11222333000144"
    ∧ (buildNfePayload cfgBase notaCnpj [itemBase] "T").cpf_destinatario = none
    ∧ (buildNfsePayload cfgBase notaCnpj "T").tomador.cnpj = some "11222333000144" := by
  have h11 := (c8_taxid_field cfgBase notaBase [itemBase] "T").2.1 (by decide)
  have h14 := (c8_taxid_field cfgBase notaCnpj [itemBase] "T").2.2 (by decide)
  refine ⟨by decide, ?_, h11.2.1, ?_, ?_, h14.2.1, ?_⟩
  · rw [h11.1]; decide
  · rw [h11.2.2.1]; decide
  · rw [h14.1]; decide
  · rw [h14.2.2.1]; decide

/-! ## Claim C4 -/

/-- C4: for every emission attempt that passes validation but whose submission
fails (the gateway exchange raises an error message, covering transport
errors and business rejections alike), the document is stored with status
'erro' and the failure message, and exactly one event row of kind 'erro'
carrying that message is appended for the attempt — for both tools. -/
theorem c4_submission_failure_error_state
    (store : Store) (orgId nota_id : String) (masterToken envApiUrl : Option String)
    (gw : String → String → NfePayload → GatewayResult) (tsRef rndRef now : String) (nowDate : Int)
    (n : NotaFiscal) (cfg : FiscalConfig) (tok msg : String)
    (hfind : findNota store nota_id orgId "nfe" = some n)
    (hst : n.status = "rascunho")
    (hne : (getItens store nota_id).isEmpty = false)
    (hcfg : findConfig store orgId = some cfg)
    (hhab : cfg.nfe_habilitado = true)
    (hcert : certExpirado cfg nowDate = false)
    (hnome : truthy n.destinatario_nome = true)
    (hdoc : truthy n.destinatario_cpf_cnpj = true)
    (hlog : truthy n.destinatario_logradouro = true)
    (hmun : truthy n.destinatario_municipio = true)
    (huf : truthy n.destinatario_uf = true)
    (htok : resolveFocusToken cfg masterToken = .ok tok)
    (hgw : gw tok (resolveFocusApiUrl cfg envApiUrl)
        (buildNfePayload cfg n (getItens store nota_id) now) = .err msg)
    (storeS : Store) (orgIdS nota_idS : String) (masterS envS : Option String)
    (gwS : String → String → NfsePayload → GatewayResult) (tsS rndS nowS : String)
    (m : NotaFiscal) (cfgS : FiscalConfig) (tokS msgS : String)
    (hfindS : findNota storeS nota_idS orgIdS "nfse" = some m)
    (hstS : m.status = "rascunho")
    (hcfgS : findConfig storeS orgIdS = some cfgS)
    (hhabS : cfgS.nfse_habilitado = true)
    (hnomeS : truthy m.destinatario_nome = true)
    (hdocS : truthy m.destinatario_cpf_cnpj = true)
    (htokS : resolveFocusToken cfgS masterS = .ok tokS)
    (hgwS : gwS tokS (resolveFocusApiUrl cfgS envS) (buildNfsePayload cfgS m nowS)
      = .err msgS) :
    ((emit_nfe store orgId nota_id masterToken envApiUrl gw tsRef rndRef now nowDate).result
        = .failure ("Erro ao emitir NFe: " ++ msg))
    ∧ (∃ x, getNota (emit_nfe store orgId nota_id masterToken envApiUrl gw tsRef rndRef now
          nowDate).store nota_id = some x
        ∧ x.status = "erro" ∧ x.mensagem_sefaz = some msg)
    ∧ ((emit_nfe store orgId nota_id masterToken envApiUrl gw tsRef rndRef now nowDate).store.eventos
        = store.eventos
          ++ [{ organization_id := orgId, nota_fiscal_id := nota_id, tipo := "erro"
              , status := "erro", mensagem := msg, dados := .erro msg, created_at := now }])
    ∧ ((emit_nfse storeS orgIdS nota_idS masterS envS gwS tsS rndS nowS).result
        = .failure ("Erro ao emitir NFSe: " ++ msgS))
    ∧ (∃ y, getNota (emit_nfse storeS orgIdS nota_idS masterS envS gwS tsS rndS nowS).store
          nota_idS = some y
        ∧ y.status = "erro" ∧ y.mensagem_sefaz = some msgS)
    ∧ ((emit_nfse storeS orgIdS nota_idS masterS envS gwS tsS rndS nowS).store.eventos
        = storeS.eventos
          ++ [{ organization_id := orgIdS, nota_fiscal_id := nota_idS, tipo := "erro"
              , status := "erro", mensagem := msgS, dados := .erro msgS
              , created_at := nowS }]) := by
  have he := emit_nfe_happy store orgId nota_id masterToken envApiUrl gw tsRef rndRef now nowDate
    n cfg hfind hst hne hcfg hhab hcert hnome hdoc hlog hmun huf
  have ht := emitNfeTry_gwErr store orgId nota_id n cfg (getItens store nota_id) masterToken
    envApiUrl gw tsRef rndRef now tok msg htok hgw
  have heS := emit_nfse_happy storeS orgIdS nota_idS masterS envS gwS tsS rndS nowS m cfgS
    hfindS hstS hcfgS hhabS hnomeS hdocS
  have htS := emitNfseTry_gwErr storeS orgIdS nota_idS m cfgS masterS envS gwS tsS rndS nowS
    tokS msgS htokS hgwS
  rw [he, ht, heS, htS]
  rcases getNota_isSome_of_findNota store nota_id orgId "nfe" n hfind with ⟨m0, hm0⟩
  rcases getNota_isSome_of_findNota storeS nota_idS orgIdS "nfse" m hfindS with ⟨p0, hp0⟩
  have hup := getNota_update2 store.notas nota_id
    (procUpdate (generateFocusRef orgId "nfe" tsRef rndRef) now)
    (erroUpdate msg now) (procUpdate_id _ _) (erroUpdate_id _ _) m0 hm0
  have hupS := getNota_update2 storeS.notas nota_idS
    (procUpdate (generateFocusRef orgIdS "nfse" tsS rndS) nowS)
    (erroUpdate msgS nowS) (procUpdate_id _ _) (erroUpdate_id _ _) p0 hp0
  exact ⟨rfl,
    ⟨erroUpdate msg now (procUpdate (generateFocusRef orgId "nfe" tsRef rndRef) now m0),
      hup, rfl, rfl⟩, rfl, rfl,
    ⟨erroUpdate msgS nowS (procUpdate (generateFocusRef orgIdS "nfse" tsS rndS) nowS p0),
      hupS, rfl, rfl⟩, rfl⟩

/-- Witness for C4: a simulated network failure against the base store, for
both document kinds. -/
theorem c4_submission_failure_error_state_witness :
    ((emit_nfe storeBase "org1" "n1" none none (fun _ _ _ => .err "falha de rede")
        "ts" "rnd" "T" 0).result = .failure "Erro ao emitir NFe: falha de rede")
    ∧ ((getNota (emit_nfe storeBase "org1" "n1" none none (fun _ _ _ => .err "falha de rede")
        "ts" "rnd" "T" 0).store "n1").map (fun x => (x.status, x.mensagem_sefaz))
        = some ("erro", some "falha de rede"))
    ∧ ((emit_nfe storeBase "org1" "n1" none none (fun _ _ _ => .err "falha de rede")
        "ts" "rnd" "T" 0).store.eventos.map (fun e => (e.tipo, e.mensagem))
        = [("erro", "falha de rede")])
    ∧ ((emit_nfse storeBase "org1" "s1" none none (fun _ _ _ => .err "falha de rede")
        "ts" "rnd" "T").result = .failure "Erro ao emitir NFSe: falha de rede") := by
  have h := c4_submission_failure_error_state storeBase "org1" "n1" none none
    (fun _ _ _ => .err "falha de rede") "ts" "rnd" "T" 0 notaBase cfgBase "tok-homolog"
    "falha de rede" (by decide) (by decide) (by decide) (by decide) (by decide) (by decide)
    (by decide) (by decide) (by decide) (by decide) (by decide) rfl rfl
    storeBase "org1" "s1" none none (fun _ _ _ => .err "falha de rede") "ts" "rnd" "T"
    notaNfseBase cfgBase "tok-homolog" "falha de rede" (by decide) (by decide) (by decide)
    (by decide) (by decide) (by decide) rfl rfl
  refine ⟨h.1, ?_, by rw [h.2.2.1]; decide, h.2.2.2.1⟩
  rcases h.2.1 with ⟨x, hx, hs, hm⟩
  rw [hx]
  simp [hs, hm]

/-! ## Claim C3 -/

/-- C3: after a successful gateway exchange the stored status is exactly the
interpretation function of the gateway status string: 'autorizado' maps to
'autorizada'; 'erro_autorizacao' maps to 'rejeitada'; 'denegado' maps to
'rejeitada' for goods but stays 'processando' for services; every other
string leaves the stored status at 'processando'. -/
theorem c3_status_mapping
    (store : Store) (orgId nota_id : String) (masterToken envApiUrl : Option String)
    (gw : String → String → NfePayload → GatewayResult) (tsRef rndRef now : String) (nowDate : Int)
    (n : NotaFiscal) (cfg : FiscalConfig) (tok : String) (r : FocusResponse)
    (hfind : findNota store nota_id orgId "nfe" = some n)
    (hst : n.status = "rascunho")
    (hne : (getItens store nota_id).isEmpty = false)
    (hcfg : findConfig store orgId = some cfg)
    (hhab : cfg.nfe_habilitado = true)
    (hcert : certExpirado cfg nowDate = false)
    (hnome : truthy n.destinatario_nome = true)
    (hdoc : truthy n.destinatario_cpf_cnpj = true)
    (hlog : truthy n.destinatario_logradouro = true)
    (hmun : truthy n.destinatario_municipio = true)
    (huf : truthy n.destinatario_uf = true)
    (htok : resolveFocusToken cfg masterToken = .ok tok)
    (hgw : gw tok (resolveFocusApiUrl cfg envApiUrl)
        (buildNfePayload cfg n (getItens store nota_id) now) = .ok r)
    (storeS : Store) (orgIdS nota_idS : String) (masterS envS : Option String)
    (gwS : String → String → NfsePayload → GatewayResult) (tsS rndS nowS : String)
    (m : NotaFiscal) (cfgS : FiscalConfig) (tokS : String) (rS : FocusResponse)
    (hfindS : findNota storeS nota_idS orgIdS "nfse" = some m)
    (hstS : m.status = "rascunho")
    (hcfgS : findConfig storeS orgIdS = some cfgS)
    (hhabS : cfgS.nfse_habilitado = true)
    (hnomeS : truthy m.destinatario_nome = true)
    (hdocS : truthy m.destinatario_cpf_cnpj = true)
    (htokS : resolveFocusToken cfgS masterS = .ok tokS)
    (hgwS : gwS tokS (resolveFocusApiUrl cfgS envS) (buildNfsePayload cfgS m nowS) = .ok rS) :
    ((getNota (emit_nfe store orgId nota_id masterToken envApiUrl gw tsRef rndRef now
          nowDate).store nota_id).map (fun x => x.status) = some (mapNfeStatus r.status))
    ∧ ((getNota (emit_nfse storeS orgIdS nota_idS masterS envS gwS tsS rndS nowS).store
          nota_idS).map (fun x => x.status) = some (mapNfseStatus rS.status))
    ∧ mapNfeStatus "autorizado" = "autorizada"
    ∧ mapNfeStatus "erro_autorizacao" = "rejeitada"
    ∧ mapNfeStatus "denegado" = "rejeitada"
    ∧ (∀ s, s ≠ "autorizado" → s ≠ "erro_autorizacao" → s ≠ "denegado" →
        mapNfeStatus s = "processando")
    ∧ mapNfseStatus "autorizado" = "autorizada"
    ∧ mapNfseStatus "erro_autorizacao" = "rejeitada"
    ∧ mapNfseStatus "denegado" = "processando"
    ∧ (∀ s, s ≠ "autorizado" → s ≠ "erro_autorizacao" → mapNfseStatus s = "processando") := by
  have he := emit_nfe_happy store orgId nota_id masterToken envApiUrl gw tsRef rndRef now nowDate
    n cfg hfind hst hne hcfg hhab hcert hnome hdoc hlog hmun huf
  have hn := emitNfeTry_ok_notas store orgId nota_id n cfg (getItens store nota_id) masterToken
    envApiUrl gw tsRef rndRef now tok r htok hgw
  have heS := emit_nfse_happy storeS orgIdS nota_idS masterS envS gwS tsS rndS nowS m cfgS
    hfindS hstS hcfgS hhabS hnomeS hdocS
  have hnS := emitNfseTry_ok_notas storeS orgIdS nota_idS m cfgS masterS envS gwS tsS rndS nowS
    tokS rS htokS hgwS
  rcases getNota_isSome_of_findNota store nota_id orgId "nfe" n hfind with ⟨m0, hm0⟩
  rcases getNota_isSome_of_findNota storeS nota_idS orgIdS "nfse" m hfindS with ⟨p0, hp0⟩
  have hup := getNota_update2 store.notas nota_id
    (procUpdate (generateFocusRef orgId "nfe" tsRef rndRef) now)
    (applyNfeUpdate cfg r (mapNfeStatus r.status) now)
    (procUpdate_id _ _) (applyNfeUpdate_id _ _ _ _) m0 hm0
  have hupS := getNota_update2 storeS.notas nota_idS
    (procUpdate (generateFocusRef orgIdS "nfse" tsS rndS) nowS)
    (applyNfseUpdate rS (mapNfseStatus rS.status) nowS)
    (procUpdate_id _ _) (applyNfseUpdate_id _ _ _) p0 hp0
  refine ⟨?_, ?_, rfl, rfl, rfl, ?_, rfl, rfl, rfl, ?_⟩
  · rw [he]
    unfold getNota
    rw [hn, hup]
    rfl
  · rw [heS]
    unfold getNota
    rw [hnS, hupS]
    rfl
  · intro s h1 h2 h3
    simp [mapNfeStatus, h1, h2, h3]
  · intro s h1 h2
    simp [mapNfseStatus, h1, h2]

/-- Gateway response fixture: denied ('denegado') without a number. -/
def respDenegado : FocusResponse :=
  { respAutorizado with status := "denegado", numero := none }

/-- Witness for C3: an authorized goods exchange and a denied service
exchange at the base store. -/
theorem c3_status_mapping_witness :
    ((getNota (emit_nfe storeBase "org1" "n1" none none (fun _ _ _ => .ok respAutorizado)
        "ts" "rnd" "T" 0).store "n1").map (fun x => x.status) = some "autorizada")
    ∧ ((getNota (emit_nfse storeBase "org1" "s1" none none (fun _ _ _ => .ok respDenegado)
        "ts" "rnd" "T").store "s1").map (fun x => x.status) = some "processando")
    ∧ mapNfeStatus "denegado" = "rejeitada"
    ∧ mapNfseStatus "denegado" = "processando" := by
  have h := c3_status_mapping storeBase "org1" "n1" none none
    (fun _ _ _ => .ok respAutorizado) "ts" "rnd" "T" 0 notaBase cfgBase "tok-homolog"
    respAutorizado (by decide) (by decide) (by decide) (by decide) (by decide) (by decide)
    (by decide) (by decide) (by decide) (by decide) (by decide) rfl rfl
    storeBase "org1" "s1" none none (fun _ _ _ => .ok respDenegado) "ts" "rnd" "T"
    notaNfseBase cfgBase "tok-homolog" respDenegado (by decide) (by decide) (by decide)
    (by decide) (by decide) (by decide) rfl rfl
  exact ⟨by rw [h.1]; decide, by rw [h.2.1]; decide, h.2.2.2.2.1, h.2.2.2.2.2.2.2.2.1⟩

/-! ## Claim C2 -/

/-- C2 counterexample: with the stored counter at 200, an authorized response
carrying number "123" leaves the counter at 123 — strictly below its previous
value, so the counter is not a monotone high-water mark. -/
theorem c2_counter_decrement_counterexample :
    ((findConfig storeBase "org1").map (fun c => c.nfe_ultimo_numero) = some 200)
    ∧ ((findConfig (emit_nfe storeBase "org1" "n1" none none
        (fun _ _ _ => .ok respAutorizado) "ts" "rnd" "T" 0).store "org1").map
          (fun c => c.nfe_ultimo_numero) = some 123)
    ∧ ¬(200 ≤ (123 : Int)) := by decide

/-- C2 amended: after an emission whose response status is 'autorizado' and
carries a number, the tenant's last-used-number counter for that kind is
overwritten with the parsed response number (so it equals the number, and in
particular is ≥ it), and the document stores that number with status
'autorizada'; the counter is not guaranteed to be ≥ its previous value. -/
theorem c2_counter_overwritten
    (store : Store) (orgId nota_id : String) (masterToken envApiUrl : Option String)
    (gw : String → String → NfePayload → GatewayResult) (tsRef rndRef now : String) (nowDate : Int)
    (n : NotaFiscal) (cfg : FiscalConfig) (tok : String) (r : FocusResponse)
    (hfind : findNota store nota_id orgId "nfe" = some n)
    (hst : n.status = "rascunho")
    (hne : (getItens store nota_id).isEmpty = false)
    (hcfg : findConfig store orgId = some cfg)
    (hhab : cfg.nfe_habilitado = true)
    (hcert : certExpirado cfg nowDate = false)
    (hnome : truthy n.destinatario_nome = true)
    (hdoc : truthy n.destinatario_cpf_cnpj = true)
    (hlog : truthy n.destinatario_logradouro = true)
    (hmun : truthy n.destinatario_municipio = true)
    (huf : truthy n.destinatario_uf = true)
    (htok : resolveFocusToken cfg masterToken = .ok tok)
    (hgw : gw tok (resolveFocusApiUrl cfg envApiUrl)
        (buildNfePayload cfg n (getItens store nota_id) now) = .ok r)
    (hstatus : r.status = "autorizado")
    (hnum : truthy r.numero = true)
    (storeS : Store) (orgIdS nota_idS : String) (masterS envS : Option String)
    (gwS : String → String → NfsePayload → GatewayResult) (tsS rndS nowS : String)
    (m : NotaFiscal) (cfgS : FiscalConfig) (tokS : String) (rS : FocusResponse)
    (hfindS : findNota storeS nota_idS orgIdS "nfse" = some m)
    (hstS : m.status = "rascunho")
    (hcfgS : findConfig storeS orgIdS = some cfgS)
    (hhabS : cfgS.nfse_habilitado = true)
    (hnomeS : truthy m.destinatario_nome = true)
    (hdocS : truthy m.destinatario_cpf_cnpj = true)
    (htokS : resolveFocusToken cfgS masterS = .ok tokS)
    (hgwS : gwS tokS (resolveFocusApiUrl cfgS envS) (buildNfsePayload cfgS m nowS) = .ok rS)
    (hstatusS : rS.status = "autorizado")
    (hnumS : truthy rS.numero = true) :
    ((findConfig (emit_nfe store orgId nota_id masterToken envApiUrl gw tsRef rndRef now
          nowDate).store orgId).map (fun c => c.nfe_ultimo_numero)
        = some (parseInt10 (jsStr r.numero)))
    ∧ ((getNota (emit_nfe store orgId nota_id masterToken envApiUrl gw tsRef rndRef now
          nowDate).store nota_id).map (fun x => (x.status, x.numero))
        = some ("autorizada", some (parseInt10 (jsStr r.numero))))
    ∧ ((findConfig (emit_nfse storeS orgIdS nota_idS masterS envS gwS tsS rndS nowS).store
          orgIdS).map (fun c => c.nfse_ultimo_numero)
        = some (parseInt10 (jsStr rS.numero)))
    ∧ ((getNota (emit_nfse storeS orgIdS nota_idS masterS envS gwS tsS rndS nowS).store
          nota_idS).map (fun x => (x.status, x.numero))
        = some ("autorizada", some (parseInt10 (jsStr rS.numero)))) := by
  have hmap : mapNfeStatus r.status = "autorizada" := by rw [hstatus]; decide
  have hcond : (mapNfeStatus r.status == "autorizada" && truthy r.numero) = true := by
    rw [hmap, hnum]; decide
  have hmapS : mapNfseStatus rS.status = "autorizada" := by rw [hstatusS]; decide
  have hcondS : (mapNfseStatus rS.status == "autorizada" && truthy rS.numero) = true := by
    rw [hmapS, hnumS]; decide
  have he := emit_nfe_happy store orgId nota_id masterToken envApiUrl gw tsRef rndRef now nowDate
    n cfg hfind hst hne hcfg hhab hcert hnome hdoc hlog hmun huf
  have hc := emitNfeTry_ok_configs store orgId nota_id n cfg (getItens store nota_id) masterToken
    envApiUrl gw tsRef rndRef now tok r htok hgw hcond
  have hn := emitNfeTry_ok_notas store orgId nota_id n cfg (getItens store nota_id) masterToken
    envApiUrl gw tsRef rndRef now tok r htok hgw
  have heS := emit_nfse_happy storeS orgIdS nota_idS masterS envS gwS tsS rndS nowS m cfgS
    hfindS hstS hcfgS hhabS hnomeS hdocS
  have hcS := emitNfseTry_ok_configs storeS orgIdS nota_idS m cfgS masterS envS gwS tsS rndS nowS
    tokS rS htokS hgwS hcondS
  have hnS := emitNfseTry_ok_notas storeS orgIdS nota_idS m cfgS masterS envS gwS tsS rndS nowS
    tokS rS htokS hgwS
  rcases getNota_isSome_of_findNota store nota_id orgId "nfe" n hfind with ⟨m0, hm0⟩
  rcases getNota_isSome_of_findNota storeS nota_idS orgIdS "nfse" m hfindS with ⟨p0, hp0⟩
  have hup := getNota_update2 store.notas nota_id
    (procUpdate (generateFocusRef orgId "nfe" tsRef rndRef) now)
    (applyNfeUpdate cfg r (mapNfeStatus r.status) now)
    (procUpdate_id _ _) (applyNfeUpdate_id _ _ _ _) m0 hm0
  have hupS := getNota_update2 storeS.notas nota_idS
    (procUpdate (generateFocusRef orgIdS "nfse" tsS rndS) nowS)
    (applyNfseUpdate rS (mapNfseStatus rS.status) nowS)
    (procUpdate_id _ _) (applyNfseUpdate_id _ _ _) p0 hp0
  have hfc := find_updateConfigs store.configs orgId
    (fun c => { c with nfe_ultimo_numero := parseInt10 (jsStr r.numero), updated_at := some now })
    (fun c => rfl)
  have hfcS := find_updateConfigs storeS.configs orgIdS
    (fun c =>
      { c with nfse_ultimo_numero := parseInt10 (jsStr rS.numero), updated_at := some nowS })
    (fun c => rfl)
  have hcfgL : List.find? (fun c => c.organization_id == orgId) store.configs = some cfg := hcfg
  have hcfgLS : List.find? (fun c => c.organization_id == orgIdS) storeS.configs
      = some cfgS := hcfgS
  refine ⟨?_, ?_, ?_, ?_⟩
  · rw [he]
    unfold findConfig
    rw [hc, hfc, hcfgL]
    rfl
  · rw [he]
    unfold getNota
    rw [hn, hup]
    simp only [Option.map_some', applyNfeUpdate, hmap, hcond, if_true, Prod.mk.injEq]
    simp [hnum]
  · rw [heS]
    unfold findConfig
    rw [hcS, hfcS, hcfgLS]
    rfl
  · rw [heS]
    unfold getNota
    rw [hnS, hupS]
    simp only [Option.map_some', applyNfseUpdate, hmapS, hcondS, if_true, Prod.mk.injEq]
    simp [hnumS]

/-- Witness for C2 (amended) at the base store and response number "123". -/
theorem c2_counter_overwritten_witness :
    ((findConfig (emit_nfe storeBase "org1" "n1" none none
        (fun _ _ _ => .ok respAutorizado) "ts" "rnd" "T" 0).store "org1").map
          (fun c => c.nfe_ultimo_numero) = some 123)
    ∧ ((getNota (emit_nfe storeBase "org1" "n1" none none
        (fun _ _ _ => .ok respAutorizado) "ts" "rnd" "T" 0).store "n1").map
          (fun x => (x.status, x.numero)) = some ("autorizada", some 123))
    ∧ ((findConfig (emit_nfse storeBase "org1" "s1" none none
        (fun _ _ _ => .ok respAutorizado) "ts" "rnd" "T").store "org1").map
          (fun c => c.nfse_ultimo_numero) = some 123)
    ∧ (123 : Int) ≤ 123 := by
  have h := c2_counter_overwritten storeBase "org1" "n1" none none
    (fun _ _ _ => .ok respAutorizado) "ts" "rnd" "T" 0 notaBase cfgBase "tok-homolog"
    respAutorizado (by decide) (by decide) (by decide) (by decide) (by decide) (by decide)
    (by decide) (by decide) (by decide) (by decide) (by decide) rfl rfl rfl (by decide)
    storeBase "org1" "s1" none none (fun _ _ _ => .ok respAutorizado) "ts" "rnd" "T"
    notaNfseBase cfgBase "tok-homolog" respAutorizado (by decide) (by decide) (by decide)
    (by decide) (by decide) (by decide) rfl rfl rfl (by decide)
  exact ⟨by rw [h.1]; decide, by rw [h.2.1]; decide, by rw [h.2.2.1]; decide, by decide⟩

/-! ## Claim C1 -/

/-- C1 counterexample: at a config where no credential resolves (empty
environment slot, no legacy token, no master token), the emission attempt
does change stored state — the document is written to status 'erro' with the
generated reference id persisted, and one event row is inserted. -/
theorem c1_config_error_counterexample :
    (resolveFocusToken cfgNoToken none = .error (tokenErrMsg "homologacao"))
    ∧ ((getNota (emit_nfe storeNoToken "org1" "n1" none none
        (fun _ _ _ => .ok respAutorizado) "ts" "rnd" "T" 0).store "n1").map
          (fun x => (x.status, x.focus_nfe_ref))
        = some ("erro", some "nfe_org1_ts_rnd"))
    ∧ ((emit_nfe storeNoToken "org1" "n1" none none (fun _ _ _ => .ok respAutorizado)
        "ts" "rnd" "T" 0).store.eventos.length = 1)
    ∧ ((emit_nfe storeNoToken "org1" "n1" none none (fun _ _ _ => .ok respAutorizado)
        "ts" "rnd" "T" 0).store ≠ storeNoToken) :=
  ⟨rfl, by decide, by decide, by decide⟩

/-- C1 amended: when no credential resolves (the configured environment's
slot, the legacy token and the master token are all empty), `emit_nfe` fails
with the configuration-error message and makes no gateway call, but stored
state is changed: the document ends in status 'erro' with the reference id
and the error message persisted, and one event row of kind 'erro' is
inserted. -/
theorem c1_config_error_writes_error_state
    (store : Store) (orgId nota_id : String) (masterToken envApiUrl : Option String)
    (gw : String → String → NfePayload → GatewayResult) (tsRef rndRef now : String) (nowDate : Int)
    (n : NotaFiscal) (cfg : FiscalConfig)
    (hfind : findNota store nota_id orgId "nfe" = some n)
    (hst : n.status = "rascunho")
    (hne : (getItens store nota_id).isEmpty = false)
    (hcfg : findConfig store orgId = some cfg)
    (hhab : cfg.nfe_habilitado = true)
    (hcert : certExpirado cfg nowDate = false)
    (hnome : truthy n.destinatario_nome = true)
    (hdoc : truthy n.destinatario_cpf_cnpj = true)
    (hlog : truthy n.destinatario_logradouro = true)
    (hmun : truthy n.destinatario_municipio = true)
    (huf : truthy n.destinatario_uf = true)
    (hslot : truthy (focusSlot cfg) = false)
    (hleg : truthy cfg.focus_nfe_token = false)
    (hmast : truthy masterToken = false) :
    ((emit_nfe store orgId nota_id masterToken envApiUrl gw tsRef rndRef now nowDate).result
        = .failure ("Erro ao emitir NFe: " ++ tokenErrMsg (focusAmbiente cfg)))
    ∧ ((emit_nfe store orgId nota_id masterToken envApiUrl gw tsRef rndRef now
          nowDate).gatewayCalled = false)
    ∧ (∃ x, getNota (emit_nfe store orgId nota_id masterToken envApiUrl gw tsRef rndRef now
          nowDate).store nota_id = some x
        ∧ x.status = "erro"
        ∧ x.focus_nfe_ref = some (generateFocusRef orgId "nfe" tsRef rndRef)
        ∧ x.mensagem_sefaz = some (tokenErrMsg (focusAmbiente cfg)))
    ∧ ((emit_nfe store orgId nota_id masterToken envApiUrl gw tsRef rndRef now
          nowDate).store.eventos
        = store.eventos
          ++ [{ organization_id := orgId, nota_fiscal_id := nota_id, tipo := "erro"
              , status := "erro", mensagem := tokenErrMsg (focusAmbiente cfg)
              , dados := .erro (tokenErrMsg (focusAmbiente cfg)), created_at := now }]) := by
  have htok := resolveFocusToken_error cfg masterToken hslot hleg hmast
  have he := emit_nfe_happy store orgId nota_id masterToken envApiUrl gw tsRef rndRef now nowDate
    n cfg hfind hst hne hcfg hhab hcert hnome hdoc hlog hmun huf
  have ht := emitNfeTry_tokenErr store orgId nota_id n cfg (getItens store nota_id) masterToken
    envApiUrl gw tsRef rndRef now (tokenErrMsg (focusAmbiente cfg)) htok
  rw [he, ht]
  rcases getNota_isSome_of_findNota store nota_id orgId "nfe" n hfind with ⟨m0, hm0⟩
  have hup := getNota_update2 store.notas nota_id
    (procUpdate (generateFocusRef orgId "nfe" tsRef rndRef) now)
    (erroUpdate (tokenErrMsg (focusAmbiente cfg)) now)
    (procUpdate_id _ _) (erroUpdate_id _ _) m0 hm0
  exact ⟨rfl, rfl,
    ⟨erroUpdate (tokenErrMsg (focusAmbiente cfg)) now
        (procUpdate (generateFocusRef orgId "nfe" tsRef rndRef) now m0),
      hup, rfl, rfl, rfl⟩, rfl⟩

/-- Witness for C1 (amended) at the concrete credential-free store. -/
theorem c1_config_error_writes_error_state_witness :
    ((emit_nfe storeNoToken "org1" "n1" none none (fun _ _ _ => .ok respAutorizado)
        "ts" "rnd" "T" 0).result
      = .failure ("Erro ao emitir NFe: " ++ tokenErrMsg "homologacao"))
    ∧ ((emit_nfe storeNoToken "org1" "n1" none none (fun _ _ _ => .ok respAutorizado)
        "ts" "rnd" "T" 0).gatewayCalled = false)
    ∧ ((getNota (emit_nfe storeNoToken "org1" "n1" none none
        (fun _ _ _ => .ok respAutorizado) "ts" "rnd" "T" 0).store "n1").map
          (fun x => (x.status, x.focus_nfe_ref, x.mensagem_sefaz))
        = some ("erro", some "nfe_org1_ts_rnd", some (tokenErrMsg "homologacao"))) := by
  have h := c1_config_error_writes_error_state storeNoToken "org1" "n1" none none
    (fun _ _ _ => .ok respAutorizado) "ts" "rnd" "T" 0 notaBase cfgNoToken
    (by decide) (by decide) (by decide) (by decide) (by decide) (by decide) (by decide)
    (by decide) (by decide) (by decide) (by decide) (by decide) (by decide) (by decide)
  refine ⟨h.1, h.2.1, ?_⟩
  rcases h.2.2.1 with ⟨x, hx, hs, hr, hm⟩
  rw [hx]
  simp only [Option.map_some', hs, hr, hm]
  decide

/-! ## Claim C10 -/

/-- Replace every tenant's certificate-expiry field. -/
def setCertConfigs (store : Store) (d : Option Int) : Store :=
  { store with configs := store.configs.map (fun c => { c with certificado_validade := d }) }

/-- The observable outcome of one attempt: result, documents, event trail and
whether the gateway was invoked (the configs are excluded on purpose). -/
def obs (o : EmitOutcome) : EmitResult × List NotaFiscal × List FiscalEvento × Bool :=
  (o.result, o.store.notas, o.store.eventos, o.gatewayCalled)

/-- `find?` by organization commutes with replacing the certificate field. -/
theorem findConfig_setCert (configs : List FiscalConfig) (orgId : String) (d : Option Int) :
    (configs.map (fun c => { c with certificado_validade := d })).find?
        (fun c => c.organization_id == orgId)
      = (configs.find? (fun c => c.organization_id == orgId)).map
          (fun c => { c with certificado_validade := d }) := by
  induction configs with
  | nil => rfl
  | cons y ys ih =>
    by_cases h : y.organization_id = orgId
    · have h1 : (y.organization_id == orgId) = true := by simpa using h
      simp only [List.map_cons, List.find?, h1, Option.map_some']
    · have h1 : (y.organization_id == orgId) = false := by simpa using h
      simp only [List.map_cons, List.find?, h1, Bool.false_eq_true, if_false]
      exact ih

/-- The try block of `emit_nfe` never returns a `validation` result. -/
theorem emitNfeTry_result_not_validation (store : Store) (orgId nota_id : String)
    (n : NotaFiscal) (cfg : FiscalConfig) (itens : List NotaItem)
    (masterToken envApiUrl : Option String) (gw : String → String → NfePayload → GatewayResult)
    (tsRef rndRef now msg : String) :
    (emitNfeTry store orgId nota_id n cfg itens masterToken envApiUrl gw tsRef rndRef now).result
      ≠ EmitResult.validation msg := by
  unfold emitNfeTry
  cases htok : resolveFocusToken cfg masterToken with
  | error e => simp [nfeCatch]
  | ok tok =>
    simp only []
    cases hgw : gw tok (resolveFocusApiUrl cfg envApiUrl) (buildNfePayload cfg n itens now) with
    | err e => simp [nfeCatch]
    | ok r => simp

/-- The observables of the `emit_nfse` try block depend on the store only
through its documents and events, and on the config only through token, URL
and payload resolution. -/
theorem emitNfseTry_obs_congr (store store2 : Store) (orgId nota_id : String) (n : NotaFiscal)
    (cfg cfg2 : FiscalConfig) (masterToken envApiUrl : Option String)
    (gw : String → String → NfsePayload → GatewayResult) (tsRef rndRef now : String)
    (hnotas : store2.notas = store.notas) (hev : store2.eventos = store.eventos)
    (htok : resolveFocusToken cfg2 masterToken = resolveFocusToken cfg masterToken)
    (hurl : resolveFocusApiUrl cfg2 envApiUrl = resolveFocusApiUrl cfg envApiUrl)
    (hpay : buildNfsePayload cfg2 n now = buildNfsePayload cfg n now) :
    obs (emitNfseTry store2 orgId nota_id n cfg2 masterToken envApiUrl gw tsRef rndRef now)
      = obs (emitNfseTry store orgId nota_id n cfg masterToken envApiUrl gw tsRef rndRef now) := by
  unfold emitNfseTry
  rw [htok, hurl, hpay]
  cases ht : resolveFocusToken cfg masterToken with
  | error e =>
    simp only [obs, nfseCatch, procStore]
    rw [hnotas, hev]
  | ok tok =>
    dsimp only
    cases hg : gw tok (resolveFocusApiUrl cfg envApiUrl) (buildNfsePayload cfg n now) with
    | err e =>
      simp only [obs, nfseCatch, procStore]
      rw [hnotas, hev]
    | ok r =>
      cases hcond : (mapNfseStatus r.status == "autorizada" && truthy r.numero) with
      | true =>
        simp only [obs, getNota, procStore, hcond, if_true]
        rw [hnotas, hev]
      | false =>
        simp only [obs, getNota, procStore, hcond, Bool.false_eq_true, if_false]
        rw [hnotas, hev]

/-- C10: the certificate-expiry precondition exists only in `emit_nfe` and
fires only when the config carries an expiry date: with the field null the
check passes vacuously and `emit_nfe` never fails with the certificate
message; and `emit_nfse` performs no certificate check at all — its
observable outcome is invariant under any change of the certificate field of
every stored config. -/
theorem c10_certificate_check (store : Store) (orgId nota_id : String)
    (masterToken envApiUrl : Option String) (gw : String → String → NfePayload → GatewayResult)
    (tsRef rndRef now : String) (nowDate : Int) (cfg : FiscalConfig)
    (hcfg : findConfig store orgId = some cfg)
    (hnone : cfg.certificado_validade = none) :
    certExpirado cfg nowDate = false
    ∧ (emit_nfe store orgId nota_id masterToken envApiUrl gw tsRef rndRef now nowDate).result
        ≠ EmitResult.validation "Certificado digital expirado"
    ∧ (∀ (storeS : Store) (d : Option Int) (orgIdS nota_idS : String)
        (masterS envS : Option String) (gwS : String → String → NfsePayload → GatewayResult)
        (tsS rndS nowS : String),
        obs (emit_nfse (setCertConfigs storeS d) orgIdS nota_idS masterS envS gwS tsS rndS nowS)
          = obs (emit_nfse storeS orgIdS nota_idS masterS envS gwS tsS rndS nowS)) := by
  have hcert : certExpirado cfg nowDate = false := by simp [certExpirado, hnone]
  refine ⟨hcert, ?_, ?_⟩
  · unfold emit_nfe
    cases hfn : findNota store nota_id orgId "nfe" with
    | none => exact fun h => EmitResult.noConfusion h
    | some n =>
      dsimp only
      split
      · exact fun h => absurd (EmitResult.validation.inj h) (by decide)
      · rw [hcfg]
        dsimp only
        split
        · exact fun h => absurd (EmitResult.validation.inj h) (by decide)
        · rw [hcert]
          simp only [Bool.false_eq_true, if_false]
          split
          · exact fun h => absurd (EmitResult.validation.inj h) (by decide)
          · split
            · exact fun h => absurd (EmitResult.validation.inj h) (by decide)
            · split
              · exact fun h => absurd (EmitResult.validation.inj h) (by decide)
              · exact emitNfeTry_result_not_validation store orgId nota_id n cfg
                  (getItens store nota_id) masterToken envApiUrl gw tsRef rndRef now _
  · intro storeS d orgIdS nota_idS masterS envS gwS tsS rndS nowS
    unfold emit_nfse
    have h1 : findNota (setCertConfigs storeS d) nota_idS orgIdS "nfse"
        = findNota storeS nota_idS orgIdS "nfse" := rfl
    rw [h1]
    cases hfn : findNota storeS nota_idS orgIdS "nfse" with
    | none => rfl
    | some m =>
      dsimp only
      cases hstm : (m.status != "rascunho") with
      | true => rfl
      | false =>
        simp only [Bool.false_eq_true, if_false]
        have h2 : findConfig (setCertConfigs storeS d) orgIdS
            = (findConfig storeS orgIdS).map (fun c => { c with certificado_validade := d }) :=
          findConfig_setCert storeS.configs orgIdS d
        rw [h2]
        cases hfc : findConfig storeS orgIdS with
        | none => rfl
        | some cfgS =>
          simp only [Option.map_some']
          dsimp only
          cases hhab : cfgS.nfse_habilitado with
          | false => rfl
          | true =>
            simp only [Bool.not_true, Bool.false_eq_true, if_false]
            cases hdest : (!truthy m.destinatario_nome
                || !truthy m.destinatario_cpf_cnpj) with
            | true => rfl
            | false =>
              simp only [Bool.false_eq_true, if_false]
              exact emitNfseTry_obs_congr storeS (setCertConfigs storeS d) orgIdS nota_idS m
                cfgS { cfgS with nfse_habilitado := true, certificado_validade := d }
                masterS envS gwS tsS rndS nowS rfl rfl rfl rfl rfl

/-- Witness for C10 at the base store (whose config has no expiry date). -/
theorem c10_certificate_check_witness :
    certExpirado cfgBase 999999 = false
    ∧ (emit_nfe storeBase "org1" "n1" none none (fun _ _ _ => .ok respAutorizado)
        "ts" "rnd" "T" 999999).result ≠ EmitResult.validation "Certificado digital expirado"
    ∧ obs (emit_nfse (setCertConfigs storeBase (some 0)) "org1" "s1" none none
        (fun _ _ _ => .ok respAutorizado) "ts" "rnd" "T")
      = obs (emit_nfse storeBase "org1" "s1" none none
        (fun _ _ _ => .ok respAutorizado) "ts" "rnd" "T") := by
  have h := c10_certificate_check storeBase "org1" "n1" none none
    (fun _ _ _ => .ok respAutorizado) "ts" "rnd" "T" 999999 cfgBase (by decide) rfl
  exact ⟨h.1, h.2.1, h.2.2 storeBase (some 0) "org1" "s1" none none
    (fun _ _ _ => .ok respAutorizado) "ts" "rnd" "T"⟩
